import Mathlib

set_option maxRecDepth 100000

/-!
# Verification of the sketchdraw diagram engine

A shallow embedding, in Lean 4, of the core of the `mermaid-live-mcp`
repository (packages/core): the seeded pseudo-random number generator, the
jitter helpers, XML escaping, the SVG renderers for flow and sequence
diagrams, the sequence layout, the post-processing phase of the flow layout,
and the zod input schemas.

Modelling conventions:
* JavaScript numbers are modelled as exact rationals (`ℚ`).
* JavaScript's `Math.cos`, `Math.sin`, `Math.atan2` and `Math.PI` are
  transcendental library functions external to the repository; they are
  modelled as an abstract oracle (`JsMath`) passed to the renderers.
* The module-level mutable `seed` of `svg-renderer.ts` is modelled by
  explicit state passing: a renderer is a function `Nat → α × Nat` taking
  the incoming seed state and returning the result together with the final
  seed state (`RandM`).
* The external hierarchical layout service (elkjs) invoked by
  `layoutFlowDiagram` is not part of the repository; its result tree is a
  parameter of the embedded post-processing phase.
-/

namespace Sketchdraw

/-! ## State threading for the module-level RNG seed -/

/-- A computation reading and updating the module-level `seed` variable of
`svg-renderer.ts`. -/
def RandM (α : Type) : Type := Nat → α × Nat

instance : Monad RandM where
  pure a := fun s => (a, s)
  bind m f := fun s => match m s with | (a, s') => f a s'

/-! ## Seeded pseudo-random number generator (svg-renderer.ts lines 77-101) -/

/-- `resetSeed()`: sets the module-level seed back to 42. -/
def resetSeed : RandM Unit := fun _ => ((), 42)

/-- One step of the seed update: `seed = (seed * 16807 + 0) % 2147483647`. -/
def nextSeed (s : Nat) : Nat := (s * 16807 + 0) % 2147483647

/-- `pseudoRandom()`: updates the seed and returns `(seed - 1) / 2147483646`. -/
def pseudoRandom : RandM ℚ := fun s =>
  let s' := nextSeed s
  (((s' : ℚ) - 1) / 2147483646, s')

/-- `jitter(value, amount)`: returns `value` unchanged when `amount === 0`
(drawing no random number), otherwise perturbs it by one random draw. -/
def jitter (value amount : ℚ) : RandM ℚ :=
  if amount = 0 then pure value
  else do
    let r ← pseudoRandom
    pure (value + (r - 0.5) * 2 * amount)

/-- `jitterPoint(x, y, amount)`: jitters `x` first, then `y`. -/
def jitterPoint (x y amount : ℚ) : RandM (ℚ × ℚ) := do
  let jx ← jitter x amount
  let jy ← jitter y amount
  pure (jx, jy)

/-! ## XML escaping (svg-renderer.ts lines 105-112) -/

/-- JavaScript `str.replace(/c/g, rep)` for a single-character pattern:
every occurrence of `c` is replaced by the string `rep`. -/
def replaceAllChar (c : Char) (rep : String) (s : String) : String :=
  ⟨s.data.flatMap (fun ch => if ch = c then rep.data else [ch])⟩

/-- `escapeXml`: the five sequential global replacements, ampersand first. -/
def escapeXml (s : String) : String :=
  replaceAllChar '\'' "&apos;" <|
    replaceAllChar '"' "&quot;" <|
      replaceAllChar '>' "&gt;" <|
        replaceAllChar '<' "&lt;" <|
          replaceAllChar '&' "&amp;" s

/-! ## Number formatting

`toFixed(1)` and the default number-to-string conversion used by template
literals. JavaScript prints a finite double via its shortest decimal
representation; on the decimal-valued rationals produced by the engine this
is the exact decimal expansion with no trailing fractional zeros. -/

/-- `n.toFixed(1)` for a non-negative rational: round half away from zero to
one decimal digit and print with exactly one fractional digit. -/
def toFixed1Nonneg (q : ℚ) : String :=
  let n : ℕ := (⌊q * 10 + 0.5⌋).toNat
  toString (n / 10) ++ "." ++ toString (n % 10)

/-- `n.toFixed(1)`: JavaScript formats the absolute value and prepends the
sign, so negative halves round away from zero. -/
def toFixed1 (q : ℚ) : String :=
  if q < 0 then "-" ++ toFixed1Nonneg (-q) else toFixed1Nonneg q

/-- Count how many times `p` divides `n` (and the remaining cofactor). -/
def stripFactor (p : Nat) : Nat → Nat → Nat × Nat
  | 0, n => (0, n)
  | fuel + 1, n =>
    if 2 ≤ p ∧ 0 < n ∧ n % p = 0 then
      let r := stripFactor p fuel (n / p)
      (r.1 + 1, r.2)
    else (0, n)

/-- Default JavaScript number-to-string conversion for a non-negative
decimal-valued rational: minimal decimal expansion. A rational whose reduced
denominator is not of the form `2^a * 5^b` (which the engine's raw
interpolations never produce) is printed from its numerator and
denominator. -/
def jsNumToStringNonneg (q : ℚ) : String :=
  let d := q.den
  let r2 := stripFactor 2 d d
  let r5 := stripFactor 5 r2.2 r2.2
  if r5.2 = 1 then
    let k := max r2.1 r5.1
    let m := (q.num * (10 : ℤ) ^ k / (d : ℤ)).toNat
    if k = 0 then toString m
    else
      let digits := toString (m % 10 ^ k)
      let padded := String.mk (List.replicate (k - digits.length) '0') ++ digits
      toString (m / 10 ^ k) ++ "." ++ padded
  else toString q.num ++ "/" ++ toString q.den

/-- Default JavaScript number-to-string conversion (`${x}` interpolation). -/
def jsNum (q : ℚ) : String :=
  if q < 0 then "-" ++ jsNumToStringNonneg (-q) else jsNumToStringNonneg q

/-! ## Truthiness of optional strings

The source tests optional string values with `if (title)` / `title ? _ : _`;
in JavaScript both `undefined` and the empty string are falsy. -/

def truthy : Option String → Bool
  | none => false
  | some s => !(s == "")

/-! ## Themes (svg-renderer.ts lines 30-71) -/

inductive Theme where
  | handDrawn
  | clean
  | minimal
deriving DecidableEq

structure ThemeConfig where
  strokeWidth : ℚ
  jitterAmount : ℚ
  fillOpacity : ℚ
  fontFamily : String
  doubleStroke : Bool
  cornerRadius : ℚ
deriving DecidableEq

def getThemeConfig : Theme → ThemeConfig
  | .handDrawn =>
    { strokeWidth := 1.5
      jitterAmount := 2
      fillOpacity := 0.15
      fontFamily := "\"Segoe Print\", \"Comic Sans MS\", cursive"
      doubleStroke := true
      cornerRadius := 0 }
  | .clean =>
    { strokeWidth := 1.5
      jitterAmount := 0
      fillOpacity := 0.1
      fontFamily := "\"Inter\", \"Helvetica\", \"Arial\", sans-serif"
      doubleStroke := false
      cornerRadius := 3 }
  | .minimal =>
    { strokeWidth := 1
      jitterAmount := 0
      fillOpacity := 0.05
      fontFamily := "\"Inter\", \"Helvetica\", \"Arial\", sans-serif"
      doubleStroke := false
      cornerRadius := 3 }

/-- JavaScript `Array.prototype.join(sep)`. -/
def joinSep (sep : String) : List String → String
  | [] => ""
  | [a] => a
  | a :: rest => a ++ sep ++ joinSep sep rest

/-! ## SVG document assembly (class SvgBuilder, svg-renderer.ts lines 116-163) -/

/-- `SvgBuilder.toString()`: the document frame around accumulated `defs`
and `elements`, joined with newlines. Width and height are interpolated
with the default number formatting. -/
def svgDocument (width height : ℚ) (defsList elements : List String) : String :=
  let header :=
    "<svg xmlns=\"http://www.w3.org/2000/svg\" viewBox=\"0 0 " ++ jsNum width ++
      " " ++ jsNum height ++ "\" width=\"" ++ jsNum width ++ "\" height=\"" ++
      jsNum height ++ "\">"
  let defsPart :=
    if defsList.length > 0 then
      ["  <defs>"] ++ defsList.map (fun d => "    " ++ d) ++ ["  </defs>"]
    else []
  let background :=
    "  <rect width=\"" ++ jsNum width ++ "\" height=\"" ++ jsNum height ++
      "\" fill=\"white\"/>"
  let parts :=
    [header] ++ defsPart ++ [background] ++ elements.map (fun e => "  " ++ e) ++
      ["</svg>"]
  joinSep "\n" parts

/-! ## Text wrapping and rendering (svg-renderer.ts lines 167-231) -/

/-- Whitespace class of the regular expression `/\s+/` (ASCII part). -/
def isJsSpace (c : Char) : Bool :=
  c = ' ' ∨ c = '\t' ∨ c = '\n' ∨ c = '\r' ∨ c = '\x0b' ∨ c = '\x0c'

/-- Helper for `jsSplitWs`: accumulate the current token (reversed). -/
def jsSplitWsAux : List Char → List Char → List String
  | [], cur => [String.mk cur.reverse]
  | c :: cs, cur =>
    if isJsSpace c then
      String.mk cur.reverse :: jsSplitWsAux (cs.dropWhile isJsSpace) []
    else jsSplitWsAux cs (c :: cur)
termination_by l _ => l.length
decreasing_by
  · exact Nat.lt_succ_of_le (List.dropWhile_sublist _).length_le
  · exact Nat.lt_succ_self _

/-- JavaScript `text.split(/\s+/)`: split on runs of whitespace, keeping the
empty tokens produced by leading and trailing whitespace. -/
def jsSplitWs (s : String) : List String := jsSplitWsAux s.data []

/-- The greedy word-accumulation loop of `wrapText`. -/
def wrapLoop (maxCharsPerLine : Nat) :
    List String → String → List String → List String
  | [], currentLine, lines =>
    if currentLine.length > 0 then lines ++ [currentLine] else lines
  | word :: ws, currentLine, lines =>
    if currentLine.length = 0 then wrapLoop maxCharsPerLine ws word lines
    else if currentLine.length + 1 + word.length ≤ maxCharsPerLine then
      wrapLoop maxCharsPerLine ws (currentLine ++ " " ++ word) lines
    else wrapLoop maxCharsPerLine ws word (lines ++ [currentLine])

/-- `wrapText(text, maxCharsPerLine)`. -/
def wrapText (text : String) (maxCharsPerLine : Nat) : List String :=
  if text.length ≤ maxCharsPerLine then [text]
  else wrapLoop maxCharsPerLine (jsSplitWs text) "" []

/-- The options object of `renderText`. -/
structure TextOpts where
  bold : Bool := false
  maxCharsPerLine : Option Nat := none

/-- One `<tspan>` of a wrapped label. -/
def renderTspan (x lineHeight : ℚ) (i : Nat) (line : String) : String :=
  "<tspan x=\"" ++ jsNum x ++ "\" dy=\"" ++
    (if i = 0 then "0" else jsNum lineHeight) ++ "\">" ++ escapeXml line ++
    "</tspan>"

/-- `renderText`: positions are interpolated with the default number
formatting (no `toFixed`). Labels longer than 20 characters are word-wrapped
into `<tspan>` lines. -/
def renderText (x y : ℚ) (text : String) (fontSize : ℚ)
    (fontFamily color : String) (opts : TextOpts := {}) : String :=
  let escaped := escapeXml text
  let bold := if opts.bold then " font-weight=\"bold\"" else ""
  let maxChars := opts.maxCharsPerLine.getD 18
  if text.length > 20 then
    let lines := wrapText text maxChars
    let lineHeight := fontSize * 1.3
    let totalHeight := ((lines.length : ℚ) - 1) * lineHeight
    let startY := y - totalHeight / 2
    let tspans :=
      String.join ((lines.enum.map fun p => renderTspan x lineHeight p.1 p.2))
    "<text x=\"" ++ jsNum x ++ "\" y=\"" ++ jsNum startY ++
      "\" text-anchor=\"middle\" dominant-baseline=\"central\" " ++
      "font-family='" ++ fontFamily ++ "' font-size=\"" ++ jsNum fontSize ++
      "\" fill=\"" ++ color ++ "\"" ++ bold ++ ">" ++ tspans ++ "</text>"
  else
    "<text x=\"" ++ jsNum x ++ "\" y=\"" ++ jsNum y ++
      "\" text-anchor=\"middle\" dominant-baseline=\"central\" " ++
      "font-family='" ++ fontFamily ++ "' font-size=\"" ++ jsNum fontSize ++
      "\" fill=\"" ++ color ++ "\"" ++ bold ++ ">" ++ escaped ++ "</text>"

/-! ## Layout result types (schema/types.ts) -/

inductive ShapeType where
  | rectangle
  | ellipse
  | diamond
  | cylinder
  | cloud
  | hexagon
  | parallelogram
deriving DecidableEq

inductive EdgeStyle where
  | solid
  | dashed
  | dotted
deriving DecidableEq

inductive ArrowDirection where
  | forward
  | backward
  | both
  | none
deriving DecidableEq

structure Pt where
  x : ℚ
  y : ℚ
deriving DecidableEq

structure LayoutNode where
  id : String
  x : ℚ
  y : ℚ
  width : ℚ
  height : ℚ
  label : String
  shape : ShapeType
  color : Option String := none
  textColor : Option String := none
deriving DecidableEq

structure LayoutEdge where
  from_ : String
  to_ : String
  label : Option String := none
  style : EdgeStyle
  direction : ArrowDirection
  color : Option String := none
  points : List Pt
deriving DecidableEq

structure LayoutGroup where
  id : String
  label : Option String := none
  x : ℚ
  y : ℚ
  width : ℚ
  height : ℚ
  color : Option String := none
deriving DecidableEq

structure LayoutResult where
  width : ℚ
  height : ℚ
  nodes : List LayoutNode
  edges : List LayoutEdge
  groups : List LayoutGroup
deriving DecidableEq

structure SequenceParticipant where
  id : String
  label : String
  x : ℚ
  topY : ℚ
  bottomY : ℚ
  width : ℚ
  color : Option String := none
deriving DecidableEq

structure SequenceMessage where
  from_ : String
  to_ : String
  label : String
  y : ℚ
  style : EdgeStyle
  color : Option String := none
  isSelfMessage : Bool
deriving DecidableEq

structure SequenceLayoutResult where
  width : ℚ
  height : ℚ
  participants : List SequenceParticipant
  messages : List SequenceMessage
deriving DecidableEq

/-! ## The JavaScript math library, as an abstract oracle -/

/-- `Math.cos`, `Math.sin`, `Math.atan2` and `Math.PI` are library functions
external to the repository; the renderers are parametric in them. -/
structure JsMath where
  cos : ℚ → ℚ
  sin : ℚ → ℚ
  atan2 : ℚ → ℚ → ℚ
  pi : ℚ

/-! ## Colour utilities (svg-renderer.ts lines 17-28, 862-874) -/

def PALETTE : List String :=
  ["#4ECDC4", "#FF6B6B", "#45B7D1", "#96CEB4", "#FFEAA7",
   "#DDA0DD", "#98D8C8", "#F7DC6F", "#BB8FCE", "#85C1E9"]

/-- `Math.round`: round half toward positive infinity. -/
def jsRound (q : ℚ) : ℤ := ⌊q + 0.5⌋

def hexVal? (c : Char) : Option Nat :=
  if '0' ≤ c ∧ c ≤ '9' then some (c.toNat - 48)
  else if 'a' ≤ c ∧ c ≤ 'f' then some (c.toNat - 87)
  else if 'A' ≤ c ∧ c ≤ 'F' then some (c.toNat - 55)
  else none

def parseIntHexAux : List Char → Nat → Nat
  | [], acc => acc
  | c :: cs, acc =>
    match hexVal? c with
    | some v => parseIntHexAux cs (acc * 16 + v)
    | none => acc

/-- JavaScript `parseInt(s, 16)`: parse a maximal hexadecimal prefix;
`none` models the `NaN` result on an empty or invalid prefix. -/
def parseIntHex (s : String) : Option Nat :=
  match s.data with
  | [] => none
  | c :: cs =>
    match hexVal? c with
    | some v => some (parseIntHexAux cs v)
    | none => none

/-- JavaScript `str.replace("#", "")`: remove the first occurrence. -/
def removeFirstChar (c : Char) : List Char → List Char
  | [] => []
  | x :: xs => if x = c then xs else x :: removeFirstChar c xs

/-- JavaScript `s.substring(a, b)`. -/
def jsSubstring (s : List Char) (a b : Nat) : String :=
  String.mk ((s.drop a).take (b - a))

def padStart2 (s : String) : String :=
  if s.length ≥ 2 then s
  else String.mk (List.replicate (2 - s.length) '0') ++ s

/-- One colour component of `darkenColor`; an unparsable component propagates
as the string `"NaN"` exactly as in JavaScript. -/
def darkenComponent (comp : Option Nat) (amount : ℚ) : String :=
  match comp with
  | none => "NaN"
  | some r =>
    let d := max 0 (jsRound ((r : ℚ) * (1 - amount)))
    padStart2 (String.mk (Nat.toDigits 16 d.toNat))

def darkenColor (hex : String) (amount : ℚ) : String :=
  let cleaned := removeFirstChar '#' hex.data
  let r := parseIntHex (jsSubstring cleaned 0 2)
  let g := parseIntHex (jsSubstring cleaned 2 4)
  let b := parseIntHex (jsSubstring cleaned 4 6)
  "#" ++ darkenComponent r amount ++ darkenComponent g amount ++
    darkenComponent b amount

/-! ## Dash patterns (svg-renderer.ts lines 878-887) -/

def getDashArray : EdgeStyle → Option String
  | .solid => none
  | .dashed => some "8,4"
  | .dotted => some "3,3"

def dashAttr : Option String → String
  | some d => " stroke-dasharray=\"" ++ d ++ "\""
  | none => ""

/-! ## Sketchy lines (svg-renderer.ts lines 235-309) -/

def sketchyLine (x1 y1 x2 y2 : ℚ) (config : ThemeConfig) (strokeColor : String)
    (dashArray : Option String := none) : RandM String :=
  if config.jitterAmount > 0 then do
    let r1 ← pseudoRandom
    let mx := (x1 + x2) / 2 + (r1 - 0.5) * config.jitterAmount * 2
    let r2 ← pseudoRandom
    let my := (y1 + y2) / 2 + (r2 - 0.5) * config.jitterAmount * 2
    let jx1 ← jitter x1 (config.jitterAmount * 0.5)
    let jy1 ← jitter y1 (config.jitterAmount * 0.5)
    let jx2 ← jitter x2 (config.jitterAmount * 0.5)
    let jy2 ← jitter y2 (config.jitterAmount * 0.5)
    let dash := dashAttr dashArray
    let first :=
      "<path d=\"M " ++ toFixed1 jx1 ++ " " ++ toFixed1 jy1 ++ " Q " ++
        toFixed1 mx ++ " " ++ toFixed1 my ++ " " ++ toFixed1 jx2 ++ " " ++
        toFixed1 jy2 ++ "\" " ++ "fill=\"none\" stroke=\"" ++ strokeColor ++
        "\" stroke-width=\"" ++ jsNum config.strokeWidth ++
        "\" stroke-linecap=\"round\"" ++ dash ++ "/>"
    if config.doubleStroke then do
      let r3 ← pseudoRandom
      let mx2 := (x1 + x2) / 2 + (r3 - 0.5) * config.jitterAmount * 2
      let r4 ← pseudoRandom
      let my2 := (y1 + y2) / 2 + (r4 - 0.5) * config.jitterAmount * 2
      let a1 ← jitter x1 (config.jitterAmount * 0.3)
      let b1 ← jitter y1 (config.jitterAmount * 0.3)
      let a2 ← jitter x2 (config.jitterAmount * 0.3)
      let b2 ← jitter y2 (config.jitterAmount * 0.3)
      let second :=
        "<path d=\"M " ++ toFixed1 a1 ++ " " ++ toFixed1 b1 ++ " " ++ "Q " ++
          toFixed1 mx2 ++ " " ++ toFixed1 my2 ++ " " ++ toFixed1 a2 ++ " " ++
          toFixed1 b2 ++ "\" " ++ "fill=\"none\" stroke=\"" ++ strokeColor ++
          "\" stroke-width=\"" ++ jsNum (config.strokeWidth * 0.5) ++
          "\" stroke-linecap=\"round\" opacity=\"0.3\"" ++ dash ++ "/>"
      pure (first ++ "\n" ++ second)
    else pure first
  else
    let dash := dashAttr dashArray
    pure ("<line x1=\"" ++ toFixed1 x1 ++ "\" y1=\"" ++ toFixed1 y1 ++
      "\" x2=\"" ++ toFixed1 x2 ++ "\" y2=\"" ++ toFixed1 y2 ++ "\" " ++
      "stroke=\"" ++ strokeColor ++ "\" stroke-width=\"" ++
      jsNum config.strokeWidth ++ "\" stroke-linecap=\"round\"" ++ dash ++ "/>")

/-- Monadic map preserving the JavaScript loop order. -/
def mapRandM (f : α → RandM β) : List α → RandM (List β)
  | [] => pure []
  | a :: as => do
    let b ← f a
    let bs ← mapRandM f as
    pure (b :: bs)

def pairsAdjacent : List Pt → List (Pt × Pt)
  | a :: b :: rest => (a, b) :: pairsAdjacent (b :: rest)
  | _ => []

def sketchyPolyline (points : List Pt) (config : ThemeConfig)
    (strokeColor : String) (dashArray : Option String := none) :
    RandM String :=
  if points.length < 2 then pure ""
  else do
    let segments ← mapRandM
      (fun p => sketchyLine p.1.x p.1.y p.2.x p.2.y config strokeColor dashArray)
      (pairsAdjacent points)
    pure (joinSep "\n" segments)

/-! ## Shape rendering (svg-renderer.ts lines 313-733) -/

/-- The fill path `M .. L .. Z` through a list of jittered corners. -/
def polyFillPath (points : List Pt) (fillColor : String) (fillOpacity : ℚ) :
    String :=
  "<path d=\"M " ++
    joinSep " L "
      (points.map (fun p => toFixed1 p.x ++ " " ++ toFixed1 p.y)) ++
    " Z\" " ++ "fill=\"" ++ fillColor ++ "\" fill-opacity=\"" ++
    jsNum fillOpacity ++ "\" stroke=\"none\"/>"

/-- The `points` attribute of a clean `<polygon>`. -/
def polyPts (points : List Pt) : String :=
  joinSep " "
    (points.map (fun p => toFixed1 p.x ++ "," ++ toFixed1 p.y))

/-- Sketchy border edges around a polygon, from vertex `i` to `(i+1) % n`. -/
def cyclicSketchEdges (points : List Pt) (config : ThemeConfig)
    (strokeColor : String) : RandM (List String) :=
  mapRandM
    (fun i =>
      let fr := points.getD i ⟨0, 0⟩
      let t := points.getD ((i + 1) % points.length) ⟨0, 0⟩
      sketchyLine fr.x fr.y t.x t.y config strokeColor)
    (List.range points.length)

def renderRectangle (x y width height : ℚ) (fillColor strokeColor : String)
    (config : ThemeConfig) : RandM String :=
  if config.jitterAmount > 0 then do
    let tl ← jitterPoint x y config.jitterAmount
    let tr ← jitterPoint (x + width) y config.jitterAmount
    let br ← jitterPoint (x + width) (y + height) config.jitterAmount
    let bl ← jitterPoint x (y + height) config.jitterAmount
    let fillPath :=
      polyFillPath [⟨tl.1, tl.2⟩, ⟨tr.1, tr.2⟩, ⟨br.1, br.2⟩, ⟨bl.1, bl.2⟩]
        fillColor config.fillOpacity
    let e1 ← sketchyLine tl.1 tl.2 tr.1 tr.2 config strokeColor
    let e2 ← sketchyLine tr.1 tr.2 br.1 br.2 config strokeColor
    let e3 ← sketchyLine br.1 br.2 bl.1 bl.2 config strokeColor
    let e4 ← sketchyLine bl.1 bl.2 tl.1 tl.2 config strokeColor
    pure (joinSep "\n" [fillPath, e1, e2, e3, e4])
  else
    pure ("<rect x=\"" ++ toFixed1 x ++ "\" y=\"" ++ toFixed1 y ++
      "\" width=\"" ++ toFixed1 width ++ "\" height=\"" ++ toFixed1 height ++
      "\" " ++ "rx=\"" ++ jsNum config.cornerRadius ++ "\" ry=\"" ++
      jsNum config.cornerRadius ++ "\" " ++ "fill=\"" ++ fillColor ++
      "\" fill-opacity=\"" ++ jsNum config.fillOpacity ++ "\" " ++
      "stroke=\"" ++ strokeColor ++ "\" stroke-width=\"" ++
      jsNum config.strokeWidth ++ "\"/>")

/-- One of the 8 sampled, jittered points on the parametric ellipse. -/
def ellipsePoint (M : JsMath) (cx cy rx ry a : ℚ) (i : Nat) : RandM Pt := do
  let angle := ((i : ℚ) / 8) * M.pi * 2
  let jx ← jitter (rx * M.cos angle) a
  let jy ← jitter (ry * M.sin angle) a
  pure ⟨cx + jx, cy + jy⟩

/-- One cubic Bezier segment of the hand-drawn ellipse path. -/
def ellipseSegment (a : ℚ) (curr next : Pt) : RandM String := do
  let d1 ← jitter ((next.x - curr.x) * 0.4) (a * 0.5)
  let cpx1 := curr.x + d1
  let d2 ← jitter ((next.y - curr.y) * 0.4) (a * 0.5)
  let cpy1 := curr.y + d2
  let d3 ← jitter ((next.x - curr.x) * 0.4) (a * 0.5)
  let cpx2 := next.x - d3
  let d4 ← jitter ((next.y - curr.y) * 0.4) (a * 0.5)
  let cpy2 := next.y - d4
  pure (" C " ++ toFixed1 cpx1 ++ " " ++ toFixed1 cpy1 ++ ", " ++
    toFixed1 cpx2 ++ " " ++ toFixed1 cpy2 ++ ", " ++ toFixed1 next.x ++ " " ++
    toFixed1 next.y)

def renderEllipse (M : JsMath) (cx cy rx ry : ℚ)
    (fillColor strokeColor : String) (config : ThemeConfig) : RandM String :=
  if config.jitterAmount > 0 then do
    let points ← mapRandM (ellipsePoint M cx cy rx ry config.jitterAmount)
      (List.range 8)
    let p0 := points.getD 0 ⟨0, 0⟩
    let segs ← mapRandM
      (fun i => ellipseSegment config.jitterAmount (points.getD i ⟨0, 0⟩)
        (points.getD ((i + 1) % 8) ⟨0, 0⟩))
      (List.range 8)
    let path := "M " ++ toFixed1 p0.x ++ " " ++ toFixed1 p0.y ++
      String.join segs ++ " Z"
    let first :=
      "<path d=\"" ++ path ++ "\" fill=\"" ++ fillColor ++
        "\" fill-opacity=\"" ++ jsNum config.fillOpacity ++ "\" " ++
        "stroke=\"" ++ strokeColor ++ "\" stroke-width=\"" ++
        jsNum config.strokeWidth ++ "\" stroke-linecap=\"round\"/>"
    if config.doubleStroke then do
      let offset := config.jitterAmount * 0.4
      let t1 ← jitter 0 offset
      let t2 ← jitter 0 offset
      let second :=
        "<path d=\"" ++ path ++ "\" fill=\"none\" " ++ "stroke=\"" ++
          strokeColor ++ "\" stroke-width=\"" ++
          jsNum (config.strokeWidth * 0.5) ++
          "\" stroke-linecap=\"round\" opacity=\"0.3\" " ++
          "transform=\"translate(" ++ toFixed1 t1 ++ ", " ++ toFixed1 t2 ++
          ")\"/>"
      pure (first ++ "\n" ++ second)
    else pure first
  else
    pure ("<ellipse cx=\"" ++ toFixed1 cx ++ "\" cy=\"" ++ toFixed1 cy ++
      "\" rx=\"" ++ toFixed1 rx ++ "\" ry=\"" ++ toFixed1 ry ++ "\" " ++
      "fill=\"" ++ fillColor ++ "\" fill-opacity=\"" ++
      jsNum config.fillOpacity ++ "\" " ++ "stroke=\"" ++ strokeColor ++
      "\" stroke-width=\"" ++ jsNum config.strokeWidth ++ "\"/>")

def renderDiamond (x y width height : ℚ) (fillColor strokeColor : String)
    (config : ThemeConfig) : RandM String := do
  let cx := x + width / 2
  let cy := y + height / 2
  let top ← jitterPoint cx y config.jitterAmount
  let right ← jitterPoint (x + width) cy config.jitterAmount
  let bottom ← jitterPoint cx (y + height) config.jitterAmount
  let left ← jitterPoint x cy config.jitterAmount
  if config.jitterAmount > 0 then do
    let fillPath :=
      polyFillPath [⟨top.1, top.2⟩, ⟨right.1, right.2⟩, ⟨bottom.1, bottom.2⟩,
        ⟨left.1, left.2⟩] fillColor config.fillOpacity
    let e1 ← sketchyLine top.1 top.2 right.1 right.2 config strokeColor
    let e2 ← sketchyLine right.1 right.2 bottom.1 bottom.2 config strokeColor
    let e3 ← sketchyLine bottom.1 bottom.2 left.1 left.2 config strokeColor
    let e4 ← sketchyLine left.1 left.2 top.1 top.2 config strokeColor
    pure (joinSep "\n" [fillPath, e1, e2, e3, e4])
  else
    pure ("<polygon points=\"" ++
      polyPts [⟨top.1, top.2⟩, ⟨right.1, right.2⟩, ⟨bottom.1, bottom.2⟩,
        ⟨left.1, left.2⟩] ++ "\" " ++
      "fill=\"" ++ fillColor ++ "\" fill-opacity=\"" ++
      jsNum config.fillOpacity ++ "\" " ++ "stroke=\"" ++ strokeColor ++
      "\" stroke-width=\"" ++ jsNum config.strokeWidth ++ "\"/>")

def renderCylinder (M : JsMath) (x y width height : ℚ)
    (fillColor strokeColor : String) (config : ThemeConfig) : RandM String := do
  let cx := x + width / 2
  let ellipseRy := min 15 (height * 0.15)
  let bodyTop := y + ellipseRy
  let bodyBottom := y + height - ellipseRy
  let rx := width / 2
  let bodyRect :=
    "<rect x=\"" ++ toFixed1 x ++ "\" y=\"" ++ toFixed1 bodyTop ++
      "\" width=\"" ++ toFixed1 width ++ "\" height=\"" ++
      toFixed1 (bodyBottom - bodyTop) ++ "\" " ++ "fill=\"" ++ fillColor ++
      "\" fill-opacity=\"" ++ jsNum config.fillOpacity ++ "\" stroke=\"none\"/>"
  if config.jitterAmount > 0 then do
    let bottomE ← renderEllipse M cx bodyBottom rx ellipseRy fillColor
      strokeColor config
    let l1 ← sketchyLine x bodyTop x bodyBottom config strokeColor
    let l2 ← sketchyLine (x + width) bodyTop (x + width) bodyBottom config
      strokeColor
    let topE ← renderEllipse M cx bodyTop rx ellipseRy fillColor strokeColor
      config
    pure (joinSep "\n" [bodyRect, bottomE, l1, l2, topE])
  else
    let bottomE :=
      "<ellipse cx=\"" ++ toFixed1 cx ++ "\" cy=\"" ++ toFixed1 bodyBottom ++
        "\" rx=\"" ++ toFixed1 rx ++ "\" ry=\"" ++ toFixed1 ellipseRy ++
        "\" " ++ "fill=\"" ++ fillColor ++ "\" fill-opacity=\"" ++
        jsNum config.fillOpacity ++ "\" stroke=\"" ++ strokeColor ++
        "\" stroke-width=\"" ++ jsNum config.strokeWidth ++ "\"/>"
    let l1 :=
      "<line x1=\"" ++ toFixed1 x ++ "\" y1=\"" ++ toFixed1 bodyTop ++
        "\" x2=\"" ++ toFixed1 x ++ "\" y2=\"" ++ toFixed1 bodyBottom ++
        "\" " ++ "stroke=\"" ++ strokeColor ++ "\" stroke-width=\"" ++
        jsNum config.strokeWidth ++ "\"/>"
    let l2 :=
      "<line x1=\"" ++ toFixed1 (x + width) ++ "\" y1=\"" ++
        toFixed1 bodyTop ++ "\" x2=\"" ++ toFixed1 (x + width) ++
        "\" y2=\"" ++ toFixed1 bodyBottom ++ "\" " ++ "stroke=\"" ++
        strokeColor ++ "\" stroke-width=\"" ++ jsNum config.strokeWidth ++
        "\"/>"
    let topE :=
      "<ellipse cx=\"" ++ toFixed1 cx ++ "\" cy=\"" ++ toFixed1 bodyTop ++
        "\" rx=\"" ++ toFixed1 rx ++ "\" ry=\"" ++ toFixed1 ellipseRy ++
        "\" " ++ "fill=\"" ++ fillColor ++ "\" fill-opacity=\"" ++
        jsNum config.fillOpacity ++ "\" stroke=\"" ++ strokeColor ++
        "\" stroke-width=\"" ++ jsNum config.strokeWidth ++ "\"/>"
    pure (joinSep "\n" [bodyRect, bottomE, l1, l2, topE])

/-- One `C c1x c1y, c2x c2y, ax ay ` piece of the cloud path: two jittered
control points followed by a fixed anchor. -/
def cloudSeg (j c1x c1y c2x c2y : ℚ) (anchor : Pt) (close : Bool) :
    RandM String := do
  let a1 ← jitter c1x j
  let b1 ← jitter c1y j
  let a2 ← jitter c2x j
  let b2 ← jitter c2y j
  pure ("C " ++ toFixed1 a1 ++ " " ++ toFixed1 b1 ++ ", " ++ toFixed1 a2 ++
    " " ++ toFixed1 b2 ++ ", " ++ toFixed1 anchor.x ++ " " ++
    toFixed1 anchor.y ++ (if close then " Z" else " "))

def renderCloud (x y width height : ℚ) (fillColor strokeColor : String)
    (config : ThemeConfig) : RandM String := do
  let j := config.jitterAmount
  let cx := x + width / 2
  let cy := y + height / 2
  let topX ← jitter cx j
  let topY ← jitter (y + height * 0.15) j
  let top : Pt := ⟨topX, topY⟩
  let trX ← jitter (x + width * 0.82) j
  let trY ← jitter (y + height * 0.25) j
  let tr : Pt := ⟨trX, trY⟩
  let rightX ← jitter (x + width * 0.92) j
  let rightY ← jitter (cy + height * 0.05) j
  let right : Pt := ⟨rightX, rightY⟩
  let brX ← jitter (x + width * 0.8) j
  let brY ← jitter (y + height * 0.8) j
  let br : Pt := ⟨brX, brY⟩
  let bottomX ← jitter cx j
  let bottomY ← jitter (y + height * 0.88) j
  let bottom : Pt := ⟨bottomX, bottomY⟩
  let blX ← jitter (x + width * 0.2) j
  let blY ← jitter (y + height * 0.8) j
  let bl : Pt := ⟨blX, blY⟩
  let leftX ← jitter (x + width * 0.08) j
  let leftY ← jitter (cy + height * 0.05) j
  let left : Pt := ⟨leftX, leftY⟩
  let tlX ← jitter (x + width * 0.18) j
  let tlY ← jitter (y + height * 0.25) j
  let tl : Pt := ⟨tlX, tlY⟩
  let s1 ← cloudSeg j (x + width * 0.6) (y - height * 0.05) (x + width * 0.9)
    (y + height * 0.05) tr false
  let s2 ← cloudSeg j (x + width * 1.05) (y + height * 0.25)
    (x + width * 1.02) (y + height * 0.55) right false
  let s3 ← cloudSeg j (x + width * 1.0) (y + height * 0.75) (x + width * 0.9)
    (y + height * 0.9) br false
  let s4 ← cloudSeg j (x + width * 0.65) (y + height * 0.98)
    (x + width * 0.35) (y + height * 0.98) bottom false
  let s5 ← cloudSeg j (x + width * 0.3) (y + height * 0.95) (x + width * 0.1)
    (y + height * 0.9) bl false
  let s6 ← cloudSeg j (x - width * 0.02) (y + height * 0.75)
    (x - width * 0.02) (y + height * 0.55) left false
  let s7 ← cloudSeg j (x - width * 0.05) (y + height * 0.25)
    (x + width * 0.1) (y + height * 0.05) tl false
  let s8 ← cloudSeg j (x + width * 0.25) (y - height * 0.05)
    (x + width * 0.4) (y - height * 0.05) top true
  let path := "M " ++ toFixed1 top.x ++ " " ++ toFixed1 top.y ++ " " ++ s1 ++
    s2 ++ s3 ++ s4 ++ s5 ++ s6 ++ s7 ++ s8
  let first :=
    "<path d=\"" ++ path ++ "\" fill=\"" ++ fillColor ++
      "\" fill-opacity=\"" ++ jsNum config.fillOpacity ++ "\" " ++
      "stroke=\"" ++ strokeColor ++ "\" stroke-width=\"" ++
      jsNum config.strokeWidth ++
      "\" stroke-linecap=\"round\" stroke-linejoin=\"round\"/>"
  if config.doubleStroke then do
    let t1 ← jitter 0 1
    let t2 ← jitter 0 1
    let second :=
      "<path d=\"" ++ path ++ "\" fill=\"none\" " ++ "stroke=\"" ++
        strokeColor ++ "\" stroke-width=\"" ++
        jsNum (config.strokeWidth * 0.5) ++
        "\" stroke-linecap=\"round\" opacity=\"0.2\" " ++
        "transform=\"translate(" ++ toFixed1 t1 ++ ", " ++ toFixed1 t2 ++
        ")\"/>"
    pure (first ++ "\n" ++ second)
  else pure first

def renderHexagon (x y width height : ℚ) (fillColor strokeColor : String)
    (config : ThemeConfig) : RandM String := do
  let cy := y + height / 2
  let inset := width * 0.25
  let p0 ← jitterPoint (x + inset) y config.jitterAmount
  let p1 ← jitterPoint (x + width - inset) y config.jitterAmount
  let p2 ← jitterPoint (x + width) cy config.jitterAmount
  let p3 ← jitterPoint (x + width - inset) (y + height) config.jitterAmount
  let p4 ← jitterPoint (x + inset) (y + height) config.jitterAmount
  let p5 ← jitterPoint x cy config.jitterAmount
  let points : List Pt :=
    [⟨p0.1, p0.2⟩, ⟨p1.1, p1.2⟩, ⟨p2.1, p2.2⟩, ⟨p3.1, p3.2⟩, ⟨p4.1, p4.2⟩,
     ⟨p5.1, p5.2⟩]
  if config.jitterAmount > 0 then do
    let fillPath := polyFillPath points fillColor config.fillOpacity
    let edges ← cyclicSketchEdges points config strokeColor
    pure (joinSep "\n" (fillPath :: edges))
  else
    pure ("<polygon points=\"" ++ polyPts points ++ "\" " ++ "fill=\"" ++
      fillColor ++ "\" fill-opacity=\"" ++ jsNum config.fillOpacity ++
      "\" " ++ "stroke=\"" ++ strokeColor ++ "\" stroke-width=\"" ++
      jsNum config.strokeWidth ++ "\"/>")

def renderParallelogram (x y width height : ℚ)
    (fillColor strokeColor : String) (config : ThemeConfig) : RandM String := do
  let skew : ℚ := 15
  let p0 ← jitterPoint (x + skew) y config.jitterAmount
  let p1 ← jitterPoint (x + width) y config.jitterAmount
  let p2 ← jitterPoint (x + width - skew) (y + height) config.jitterAmount
  let p3 ← jitterPoint x (y + height) config.jitterAmount
  let points : List Pt :=
    [⟨p0.1, p0.2⟩, ⟨p1.1, p1.2⟩, ⟨p2.1, p2.2⟩, ⟨p3.1, p3.2⟩]
  if config.jitterAmount > 0 then do
    let fillPath := polyFillPath points fillColor config.fillOpacity
    let edges ← cyclicSketchEdges points config strokeColor
    pure (joinSep "\n" (fillPath :: edges))
  else
    pure ("<polygon points=\"" ++ polyPts points ++ "\" " ++ "fill=\"" ++
      fillColor ++ "\" fill-opacity=\"" ++ jsNum config.fillOpacity ++
      "\" " ++ "stroke=\"" ++ strokeColor ++ "\" stroke-width=\"" ++
      jsNum config.strokeWidth ++ "\"/>")

/-! ## Shape dispatcher (svg-renderer.ts lines 737-858) -/

def dispatchShape (M : JsMath) (node : LayoutNode)
    (fillColor strokeColor : String) (config : ThemeConfig) : RandM String :=
  match node.shape with
  | .rectangle =>
    renderRectangle node.x node.y node.width node.height fillColor strokeColor
      config
  | .ellipse =>
    renderEllipse M (node.x + node.width / 2) (node.y + node.height / 2)
      (node.width / 2) (node.height / 2) fillColor strokeColor config
  | .diamond =>
    renderDiamond node.x node.y node.width node.height fillColor strokeColor
      config
  | .cylinder =>
    renderCylinder M node.x node.y node.width node.height fillColor
      strokeColor config
  | .cloud =>
    renderCloud node.x node.y node.width node.height fillColor strokeColor
      config
  | .hexagon =>
    renderHexagon node.x node.y node.width node.height fillColor strokeColor
      config
  | .parallelogram =>
    renderParallelogram node.x node.y node.width node.height fillColor
      strokeColor config

/-- The label Y adjustment of `renderShape` for cylinder and cloud shapes. -/
def shapeTextY (node : LayoutNode) : ℚ :=
  let base := node.y + node.height / 2
  match node.shape with
  | .cylinder => base + min 15 (node.height * 0.15) / 2
  | .cloud => base + node.height * 0.04
  | _ => base

def renderShape (M : JsMath) (node : LayoutNode) (config : ThemeConfig)
    (colorIndex : Nat) : RandM String := do
  let fillColor := node.color.getD (PALETTE.getD (colorIndex % PALETTE.length) "")
  let strokeColor := darkenColor fillColor 0.3
  let textColor := node.textColor.getD "#333333"
  let shapeSvg ← dispatchShape M node fillColor strokeColor config
  let textX := node.x + node.width / 2
  let label := renderText textX (shapeTextY node) node.label 14
    config.fontFamily textColor { maxCharsPerLine := some 18 }
  pure ("<g class=\"node\" data-id=\"" ++ escapeXml node.id ++ "\">\n" ++
    shapeSvg ++ "\n" ++ label ++ "\n</g>")

/-! ## Arrowheads and edges (svg-renderer.ts lines 891-980) -/

def renderArrowhead (M : JsMath) (tipX tipY fromX fromY : ℚ) (color : String)
    (config : ThemeConfig) : RandM String := do
  let size : ℚ := 10
  let angle := M.atan2 (tipY - fromY) (tipX - fromX)
  let leftAngle := angle + M.pi * 0.82
  let rightAngle := angle - M.pi * 0.82
  let x1 := tipX + size * M.cos leftAngle
  let y1 := tipY + size * M.sin leftAngle
  let x2 := tipX + size * M.cos rightAngle
  let y2 := tipY + size * M.sin rightAngle
  let jx1 ← jitter x1 (config.jitterAmount * 0.5)
  let jy1 ← jitter y1 (config.jitterAmount * 0.5)
  let jx2 ← jitter x2 (config.jitterAmount * 0.5)
  let jy2 ← jitter y2 (config.jitterAmount * 0.5)
  let jtx ← jitter tipX (config.jitterAmount * 0.3)
  let jty ← jitter tipY (config.jitterAmount * 0.3)
  pure ("<polygon points=\"" ++ toFixed1 jtx ++ "," ++ toFixed1 jty ++ " " ++
    toFixed1 jx1 ++ "," ++ toFixed1 jy1 ++ " " ++ toFixed1 jx2 ++ "," ++
    toFixed1 jy2 ++ "\" " ++ "fill=\"" ++ color ++ "\" stroke=\"" ++ color ++
    "\" stroke-width=\"" ++ jsNum (config.strokeWidth * 0.5) ++
    "\" stroke-linejoin=\"round\"/>")

/-- The white background and text of an edge label at the mid-waypoint. -/
def edgeLabelParts (points : List Pt) (label : String)
    (config : ThemeConfig) (strokeColor : String) : List String :=
  let midIdx := points.length / 2
  let mx :=
    if points.length % 2 = 0 then
      ((points.getD (midIdx - 1) ⟨0, 0⟩).x + (points.getD midIdx ⟨0, 0⟩).x) / 2
    else (points.getD midIdx ⟨0, 0⟩).x
  let my :=
    if points.length % 2 = 0 then
      ((points.getD (midIdx - 1) ⟨0, 0⟩).y + (points.getD midIdx ⟨0, 0⟩).y) / 2
    else (points.getD midIdx ⟨0, 0⟩).y
  let labelWidth := max ((label.length : ℚ) * 7 + 12) 30
  let labelHeight : ℚ := 20
  ["<rect x=\"" ++ toFixed1 (mx - labelWidth / 2) ++ "\" y=\"" ++
      toFixed1 (my - labelHeight / 2 - 2) ++ "\" " ++ "width=\"" ++
      toFixed1 labelWidth ++ "\" height=\"" ++ toFixed1 labelHeight ++
      "\" " ++ "rx=\"3\" ry=\"3\" fill=\"white\" fill-opacity=\"0.9\" stroke=\"none\"/>",
    renderText mx (my - 2) label 12 config.fontFamily strokeColor]

/-- `renderEdge`. The `nodesById` map parameter of the source is unused in
its body and therefore omitted. -/
def renderEdge (M : JsMath) (edge : LayoutEdge) (config : ThemeConfig) :
    RandM String :=
  if edge.points.length < 2 then pure ""
  else do
    let strokeColor := edge.color.getD "#666666"
    let dashArray := getDashArray edge.style
    let line ← sketchyPolyline edge.points config strokeColor dashArray
    let fwd ←
      if edge.direction = .forward ∨ edge.direction = .both then do
        let tip := edge.points.getLastD ⟨0, 0⟩
        let fr := edge.points.dropLast.getLastD ⟨0, 0⟩
        let a ← renderArrowhead M tip.x tip.y fr.x fr.y strokeColor config
        pure [a]
      else pure []
    let bwd ←
      if edge.direction = .backward ∨ edge.direction = .both then do
        let tip := edge.points.getD 0 ⟨0, 0⟩
        let fr := edge.points.getD 1 ⟨0, 0⟩
        let a ← renderArrowhead M tip.x tip.y fr.x fr.y strokeColor config
        pure [a]
      else pure []
    let labelParts :=
      if truthy edge.label then
        edgeLabelParts edge.points (edge.label.getD "") config strokeColor
      else []
    pure ("<g class=\"edge\" data-from=\"" ++ escapeXml edge.from_ ++
      "\" data-to=\"" ++ escapeXml edge.to_ ++ "\">\n" ++
      joinSep "\n" ([line] ++ fwd ++ bwd ++ labelParts) ++
      "\n</g>")

/-! ## Group rendering (svg-renderer.ts lines 984-1040) -/

/-- JavaScript `s.replace(pat, rep)` for a string pattern: replace the first
occurrence only. -/
def replaceFirstAux (pat rep : List Char) : List Char → List Char
  | [] => []
  | c :: cs =>
    if pat.isPrefixOf (c :: cs) then rep ++ (c :: cs).drop pat.length
    else c :: replaceFirstAux pat rep cs

def replaceFirstStr (pat rep s : String) : String :=
  ⟨replaceFirstAux pat.data rep.data s.data⟩

/-- The left-anchored group/self-message label: `renderText` output with the
first `text-anchor="middle"` replaced by `text-anchor="start"`. -/
def startAnchored (textSvg : String) : String :=
  replaceFirstStr "text-anchor=\"middle\"" "text-anchor=\"start\"" textSvg

def renderGroup (group : LayoutGroup) (config : ThemeConfig) : RandM String := do
  let strokeColor := group.color.getD "#AAAAAA"
  let fillColor := group.color.getD "#F5F5F5"
  let body ←
    if config.jitterAmount > 0 then do
      let tl ← jitterPoint group.x group.y config.jitterAmount
      let tr ← jitterPoint (group.x + group.width) group.y config.jitterAmount
      let br ← jitterPoint (group.x + group.width) (group.y + group.height)
        config.jitterAmount
      let bl ← jitterPoint group.x (group.y + group.height) config.jitterAmount
      let fillPath :=
        "<path d=\"M " ++ toFixed1 tl.1 ++ " " ++ toFixed1 tl.2 ++ " L " ++
          toFixed1 tr.1 ++ " " ++ toFixed1 tr.2 ++ " " ++ "L " ++
          toFixed1 br.1 ++ " " ++ toFixed1 br.2 ++ " L " ++ toFixed1 bl.1 ++
          " " ++ toFixed1 bl.2 ++ " Z\" " ++ "fill=\"" ++ fillColor ++
          "\" fill-opacity=\"0.05\" stroke=\"none\"/>"
      let e1 ← sketchyLine tl.1 tl.2 tr.1 tr.2 config strokeColor (some "6,4")
      let e2 ← sketchyLine tr.1 tr.2 br.1 br.2 config strokeColor (some "6,4")
      let e3 ← sketchyLine br.1 br.2 bl.1 bl.2 config strokeColor (some "6,4")
      let e4 ← sketchyLine bl.1 bl.2 tl.1 tl.2 config strokeColor (some "6,4")
      pure [fillPath, e1, e2, e3, e4]
    else
      pure ["<rect x=\"" ++ toFixed1 group.x ++ "\" y=\"" ++
        toFixed1 group.y ++ "\" width=\"" ++ toFixed1 group.width ++
        "\" height=\"" ++ toFixed1 group.height ++ "\" " ++ "rx=\"" ++
        jsNum config.cornerRadius ++ "\" ry=\"" ++ jsNum config.cornerRadius ++
        "\" " ++ "fill=\"" ++ fillColor ++ "\" fill-opacity=\"0.05\" " ++
        "stroke=\"" ++ strokeColor ++ "\" stroke-width=\"" ++
        jsNum config.strokeWidth ++ "\" stroke-dasharray=\"6,4\"/>"]
  let labelParts :=
    if truthy group.label then
      [startAnchored (renderText (group.x + 12) (group.y + 14)
        (group.label.getD "") 12 config.fontFamily strokeColor
        { bold := false })]
    else []
  pure ("<g class=\"group\" data-id=\"" ++ escapeXml group.id ++ "\">\n" ++
    joinSep "\n" (body ++ labelParts) ++ "\n</g>")

/-! ## Title (svg-renderer.ts lines 1044-1058) -/

def renderTitle (title : String) (svgWidth : ℚ) (config : ThemeConfig) :
    String :=
  renderText (svgWidth / 2) 24 title 18 config.fontFamily "#333333"
    { bold := true }

/-! ## Sequence diagram helpers (svg-renderer.ts lines 1062-1221) -/

def renderParticipantBox (participant : SequenceParticipant) (yTop : ℚ)
    (config : ThemeConfig) (colorIndex : Nat) : RandM String := do
  let boxHeight : ℚ := 40
  let fillColor :=
    participant.color.getD (PALETTE.getD (colorIndex % PALETTE.length) "")
  let strokeColor := darkenColor fillColor 0.3
  let bx := participant.x - participant.width / 2
  let by_ := yTop
  let box ← renderRectangle bx by_ participant.width boxHeight fillColor
    strokeColor config
  let label := renderText participant.x (by_ + boxHeight / 2)
    participant.label 13 config.fontFamily "#333333"
    { maxCharsPerLine := some 18 }
  pure (box ++ "\n" ++ label)

def renderLifeline (participant : SequenceParticipant)
    (config : ThemeConfig) : RandM String :=
  sketchyLine participant.x (participant.topY + 40) participant.x
    participant.bottomY config "#999999" (some "6,4")

/-- The `Map`-backed participant lookup: `Map.set` in insertion order means
the last participant with a given id wins. -/
def findParticipant (ps : List SequenceParticipant) (id : String) :
    Option SequenceParticipant :=
  ps.reverse.find? (fun p => p.id == id)

def renderMessage (M : JsMath) (msg : SequenceMessage)
    (ps : List SequenceParticipant) (config : ThemeConfig) : RandM String :=
  match findParticipant ps msg.from_, findParticipant ps msg.to_ with
  | some fromP, some toP => do
    let strokeColor := msg.color.getD "#666666"
    let dashArray := getDashArray msg.style
    let parts ←
      if msg.isSelfMessage then do
        let sx := fromP.x
        let sy := msg.y
        let loopWidth : ℚ := 30
        let loopHeight : ℚ := 20
        let loop ←
          if config.jitterAmount > 0 then do
            let j := config.jitterAmount
            let a1 ← jitter sx j
            let b1 ← jitter sy j
            let a2 ← jitter (sx + loopWidth) j
            let b2 ← jitter sy j
            let a3 ← jitter (sx + loopWidth) j
            let b3 ← jitter (sy + loopHeight) j
            let a4 ← jitter sx j
            let b4 ← jitter (sy + loopHeight) j
            let path :=
              "M " ++ toFixed1 a1 ++ " " ++ toFixed1 b1 ++ " " ++ "L " ++
                toFixed1 a2 ++ " " ++ toFixed1 b2 ++ " " ++ "L " ++
                toFixed1 a3 ++ " " ++ toFixed1 b3 ++ " " ++ "L " ++
                toFixed1 a4 ++ " " ++ toFixed1 b4
            pure ("<path d=\"" ++ path ++
              "\" fill=\"none\" stroke=\"" ++ strokeColor ++
              "\" stroke-width=\"" ++ jsNum config.strokeWidth ++
              "\" stroke-linecap=\"round\"" ++ dashAttr dashArray ++ "/>")
          else do
            let path :=
              "M " ++ toFixed1 sx ++ " " ++ toFixed1 sy ++ " " ++ "L " ++
                toFixed1 (sx + loopWidth) ++ " " ++ toFixed1 sy ++ " " ++
                "L " ++ toFixed1 (sx + loopWidth) ++ " " ++
                toFixed1 (sy + loopHeight) ++ " " ++ "L " ++ toFixed1 sx ++
                " " ++ toFixed1 (sy + loopHeight)
            pure ("<path d=\"" ++ path ++
              "\" fill=\"none\" stroke=\"" ++ strokeColor ++
              "\" stroke-width=\"" ++ jsNum config.strokeWidth ++
              "\" stroke-linecap=\"round\"" ++ dashAttr dashArray ++ "/>")
        let arrow ← renderArrowhead M fromP.x (msg.y + loopHeight)
          (fromP.x + loopWidth) (msg.y + loopHeight) strokeColor config
        let labelX := sx + loopWidth + 8
        let labelY := sy + loopHeight / 2
        let label := startAnchored (renderText labelX labelY msg.label 12
          config.fontFamily strokeColor)
        pure [loop, arrow, label]
      else do
        let fromX := fromP.x
        let toX := toP.x
        let y := msg.y
        let linePoints : List Pt := [⟨fromX, y⟩, ⟨toX, y⟩]
        let line ← sketchyPolyline linePoints config strokeColor dashArray
        let arrow ← renderArrowhead M toX y fromX y strokeColor config
        let midX := (fromX + toX) / 2
        let labelY := y - 8
        let labelWidth := max ((msg.label.length : ℚ) * 7 + 12) 30
        let labelHeight : ℚ := 18
        let bg :=
          "<rect x=\"" ++ toFixed1 (midX - labelWidth / 2) ++ "\" y=\"" ++
            toFixed1 (labelY - labelHeight / 2) ++ "\" " ++ "width=\"" ++
            toFixed1 labelWidth ++ "\" height=\"" ++ toFixed1 labelHeight ++
            "\" " ++
            "rx=\"3\" ry=\"3\" fill=\"white\" fill-opacity=\"0.9\" stroke=\"none\"/>"
        let label := renderText midX labelY msg.label 12 config.fontFamily
          strokeColor
        pure [line, arrow, bg, label]
    pure ("<g class=\"message\">\n" ++ joinSep "\n" parts ++
      "\n</g>")
  | _, _ => pure ""

/-! ## Public renderers (svg-renderer.ts lines 1233-1359) -/

/-- Wrap the content parts in the title-offset `<g>` when a title is
present, as both public renderers do. -/
def wrapContent (titleOffset : ℚ) (titleElems contentParts : List String) :
    List String :=
  if titleOffset > 0 then
    titleElems ++
      ["<g transform=\"translate(0, " ++ jsNum titleOffset ++ ")\">\n" ++
        joinSep "\n" contentParts ++ "\n</g>"]
  else titleElems ++ contentParts

/-- `renderFlowDiagram(layout, theme, title?)`. -/
def renderFlowDiagram (M : JsMath) (layout : LayoutResult) (theme : Theme)
    (title : Option String := none) : RandM String := do
  resetSeed
  let config := getThemeConfig theme
  let titleOffset : ℚ := if truthy title then 40 else 0
  let svgWidth := layout.width
  let svgHeight := layout.height + titleOffset
  let titleElems :=
    if truthy title then [renderTitle (title.getD "") svgWidth config] else []
  let groupParts ← mapRandM (fun g => renderGroup g config) layout.groups
  let edgeParts ← mapRandM (fun e => renderEdge M e config) layout.edges
  let nodeParts ← mapRandM (fun p => renderShape M p.2 config p.1)
    layout.nodes.enum
  let contentParts := groupParts ++ edgeParts ++ nodeParts
  pure (svgDocument svgWidth svgHeight []
    (wrapContent titleOffset titleElems contentParts))

/-- `renderSequenceDiagram(layout, theme, title?)`. -/
def renderSequenceDiagram (M : JsMath) (layout : SequenceLayoutResult)
    (theme : Theme) (title : Option String := none) : RandM String := do
  resetSeed
  let config := getThemeConfig theme
  let titleOffset : ℚ := if truthy title then 40 else 0
  let svgWidth := layout.width
  let svgHeight := layout.height + titleOffset
  let titleElems :=
    if truthy title then [renderTitle (title.getD "") svgWidth config] else []
  let lifelineParts ← mapRandM (fun p => renderLifeline p config)
    layout.participants
  let messageParts ← mapRandM
    (fun m => renderMessage M m layout.participants config) layout.messages
  let topBoxParts ← mapRandM
    (fun p => renderParticipantBox p.2 p.2.topY config p.1)
    layout.participants.enum
  let bottomBoxParts ← mapRandM
    (fun p => renderParticipantBox p.2 p.2.bottomY config p.1)
    layout.participants.enum
  let contentParts :=
    lifelineParts ++ messageParts ++ topBoxParts ++ bottomBoxParts
  pure (svgDocument svgWidth svgHeight []
    (wrapContent titleOffset titleElems contentParts))

/-! ## Diagram definition types (schema/types.ts, parsed values) -/

structure NodeDef where
  id : String
  label : String
  shape : ShapeType := .rectangle
  color : Option String := none
  textColor : Option String := none
  width : Option ℚ := none
  height : Option ℚ := none
deriving DecidableEq

structure EdgeDef where
  from_ : String
  to_ : String
  label : Option String := none
  style : EdgeStyle := .solid
  direction : ArrowDirection := .forward
  color : Option String := none
deriving DecidableEq

structure GroupDef where
  id : String
  label : Option String := none
  contains : List String
  color : Option String := none
deriving DecidableEq

structure ParticipantDef where
  id : String
  label : String
  color : Option String := none
deriving DecidableEq

structure MessageDef where
  from_ : String
  to_ : String
  label : String
  style : EdgeStyle := .solid
  color : Option String := none
deriving DecidableEq

inductive FlowDirection where
  | TB
  | LR
  | BT
  | RL
deriving DecidableEq

inductive OutputFormat where
  | svg
  | png
deriving DecidableEq

structure OutputOptions where
  format : OutputFormat := .svg
  path : Option String := none
deriving DecidableEq

structure FlowDiagramDef where
  title : Option String := none
  nodes : List NodeDef
  edges : List EdgeDef := []
  groups : List GroupDef := []
  style : Theme := .handDrawn
  direction : FlowDirection := .TB
  output : Option OutputOptions := none
deriving DecidableEq

structure SequenceDiagramDef where
  title : Option String := none
  participants : List ParticipantDef
  messages : List MessageDef
  style : Theme := .handDrawn
  output : Option OutputOptions := none
deriving DecidableEq

inductive DiagramDef where
  | flow (d : FlowDiagramDef)
  | sequence (d : SequenceDiagramDef)
deriving DecidableEq

/-! ## Sequence layout (layout/sequence-layout.ts) -/

namespace SeqLayout

def PADDING : ℚ := 40
def PARTICIPANT_BOX_HEIGHT : ℚ := 40
def PARTICIPANT_GAP : ℚ := 60
def PARTICIPANT_MIN_WIDTH : ℚ := 100
def PARTICIPANT_CHAR_WIDTH : ℚ := 10
def PARTICIPANT_LABEL_PADDING : ℚ := 40
def TITLE_HEIGHT : ℚ := 40
def MESSAGE_SPACING : ℚ := 50
def SELF_MESSAGE_HEIGHT_OFFSET : ℚ := 30
def LIFELINE_BOTTOM_PADDING : ℚ := 40

def computeParticipantWidth (label : String) : ℚ :=
  max PARTICIPANT_MIN_WIDTH
    ((label.length : ℚ) * PARTICIPANT_CHAR_WIDTH + PARTICIPANT_LABEL_PADDING)

/-- The left-to-right cursor accumulating participant centre positions. -/
def centerXsFrom (cursorX : ℚ) : List ℚ → List ℚ
  | [] => []
  | w :: ws => (cursorX + w / 2) :: centerXsFrom (cursorX + w + PARTICIPANT_GAP) ws

/-- The message-placement loop: assign `y`, then advance by the message
spacing (plus the self-message offset for `from == to`). -/
def layoutMessagesFrom (y : ℚ) : List MessageDef → List SequenceMessage
  | [] => []
  | m :: ms =>
    let isSelf := m.from_ == m.to_
    { from_ := m.from_
      to_ := m.to_
      label := m.label
      y := y
      style := m.style
      color := m.color
      isSelfMessage := isSelf } ::
      layoutMessagesFrom
        (y + if isSelf then MESSAGE_SPACING + SELF_MESSAGE_HEIGHT_OFFSET
             else MESSAGE_SPACING) ms

/-- The starting Y coordinate of `layoutSequenceDiagram`. -/
def seqStartY (d : SequenceDiagramDef) : ℚ :=
  if truthy d.title then PADDING + TITLE_HEIGHT else PADDING

def layoutSequenceDiagram (d : SequenceDiagramDef) : SequenceLayoutResult :=
  let startY := seqStartY d
  let widths := d.participants.map (fun p => computeParticipantWidth p.label)
  let centerXs := centerXsFrom PADDING widths
  let messageTopY := startY + PARTICIPANT_BOX_HEIGHT + MESSAGE_SPACING
  let layoutMessages := layoutMessagesFrom messageTopY d.messages
  let lastMessageY :=
    match layoutMessages.getLast? with
    | some lm => lm.y
    | none => startY + PARTICIPANT_BOX_HEIGHT
  let lastMessageBottomY :=
    match layoutMessages.getLast? with
    | some lastMsg =>
      if lastMsg.isSelfMessage then lastMsg.y + SELF_MESSAGE_HEIGHT_OFFSET
      else lastMessageY
    | none => lastMessageY
  let lifelineBottomY := lastMessageBottomY + LIFELINE_BOTTOM_PADDING
  let layoutParticipants := d.participants.enum.map (fun pi =>
    { id := pi.2.id
      label := pi.2.label
      x := centerXs.getD pi.1 0
      topY := startY
      bottomY := lifelineBottomY
      width := widths.getD pi.1 0
      color := pi.2.color : SequenceParticipant })
  let totalWidth :=
    if d.participants.length > 0 then
      centerXs.getLastD 0 + widths.getLastD 0 / 2 + PADDING
    else PADDING * 2
  let totalHeight := lifelineBottomY + PADDING
  { width := totalWidth
    height := totalHeight
    participants := layoutParticipants
    messages := layoutMessages }

end SeqLayout


/-! ## Flow layout, post-processing phase (layout/flow-layout.ts)

`layoutFlowDiagram` builds an input tree for the external elkjs layered
layout service, awaits its result, and post-processes it. The service call
itself is external to the repository; the embedded function below takes the
service's result tree as a parameter and models everything from
`collectNodePositions(result)` to the returned `LayoutResult`. -/

namespace FlowLayout

def PADDING : ℚ := 40
def NODE_MIN_WIDTH : ℚ := 120
def NODE_HEIGHT : ℚ := 60
def CHAR_WIDTH_PX : ℚ := 10
def NODE_HORIZONTAL_PADDING : ℚ := 40

def estimateNodeWidth (label : String) : ℚ :=
  max NODE_MIN_WIDTH ((label.length : ℚ) * CHAR_WIDTH_PX + NODE_HORIZONTAL_PADDING)

structure ElkSection where
  startPoint : Pt
  bendPoints : Option (List Pt) := none
  endPoint : Pt
deriving DecidableEq

structure ElkEdgeRes where
  id : String
  sections : Option (List ElkSection) := none
deriving DecidableEq

/-- The result tree returned by the layout service: every node may carry a
position, dimensions, children and edges. -/
inductive ElkNodeRes where
  | mk (id : String) (x y width height : Option ℚ)
      (children : Option (List ElkNodeRes))
      (edges : Option (List ElkEdgeRes)) : ElkNodeRes

def ElkNodeRes.id : ElkNodeRes → String
  | .mk i _ _ _ _ _ _ => i

def ElkNodeRes.x : ElkNodeRes → Option ℚ
  | .mk _ v _ _ _ _ _ => v

def ElkNodeRes.y : ElkNodeRes → Option ℚ
  | .mk _ _ v _ _ _ _ => v

def ElkNodeRes.width : ElkNodeRes → Option ℚ
  | .mk _ _ _ v _ _ _ => v

def ElkNodeRes.height : ElkNodeRes → Option ℚ
  | .mk _ _ _ _ v _ _ => v

def ElkNodeRes.children : ElkNodeRes → Option (List ElkNodeRes)
  | .mk _ _ _ _ _ c _ => c

def ElkNodeRes.edges : ElkNodeRes → Option (List ElkEdgeRes)
  | .mk _ _ _ _ _ _ e => e

/-- `child.children && child.children.length > 0`. -/
def hasChildren (n : ElkNodeRes) : Bool :=
  match n.children with
  | some l => l.length > 0
  | none => false

structure PosBox where
  x : ℚ
  y : ℚ
  width : ℚ
  height : ℚ
deriving DecidableEq

/-- `Map.set` in traversal order followed by `Map.get`: the last binding of
a key wins. -/
def mapGet (entries : List (String × α)) (key : String) : Option α :=
  (entries.reverse.find? (fun e => e.1 == key)).map (fun e => e.2)

mutual

/-- The `walk` of `collectNodePositions`, returning the `positions.set`
calls in order. -/
def collectWalk : ElkNodeRes → ℚ → ℚ → List (String × PosBox)
  | .mk _ _ _ _ _ none _, _, _ => []
  | .mk _ _ _ _ _ (some cs) _, offsetX, offsetY =>
    collectWalkList cs offsetX offsetY

def collectWalkList : List ElkNodeRes → ℚ → ℚ → List (String × PosBox)
  | [], _, _ => []
  | child :: rest, offsetX, offsetY =>
    let cx := child.x.getD 0 + offsetX
    let cy := child.y.getD 0 + offsetY
    let cw := child.width.getD 0
    let ch := child.height.getD 0
    (if hasChildren child then collectWalk child cx cy
     else [(child.id, { x := cx, y := cy, width := cw, height := ch })]) ++
      collectWalkList rest offsetX offsetY

end

def collectNodePositions (root : ElkNodeRes) : List (String × PosBox) :=
  collectWalk root 0 0

def collectGroupPositions (root : ElkNodeRes) : List (String × PosBox) :=
  match root.children with
  | none => []
  | some cs =>
    cs.filterMap (fun child =>
      if hasChildren child then
        some (child.id,
          { x := child.x.getD 0, y := child.y.getD 0,
            width := child.width.getD 0, height := child.height.getD 0 })
      else none)

def extractRoutePoints (sections : Option (List ElkSection)) : List Pt :=
  match sections with
  | none => []
  | some secs =>
    secs.flatMap (fun sec =>
      [sec.startPoint] ++ (sec.bendPoints.getD []) ++ [sec.endPoint])

mutual

def routesWalk : ElkNodeRes → ℚ → ℚ → List (String × List Pt)
  | .mk _ _ _ _ _ children edges, offsetX, offsetY =>
    (match edges with
     | none => []
     | some es =>
       es.map (fun e =>
         (e.id, (extractRoutePoints e.sections).map
           (fun p => ⟨p.x + offsetX, p.y + offsetY⟩)))) ++
    (match children with
     | none => []
     | some cs => routesWalkList cs offsetX offsetY)

def routesWalkList : List ElkNodeRes → ℚ → ℚ → List (String × List Pt)
  | [], _, _ => []
  | child :: rest, offsetX, offsetY =>
    routesWalk child (child.x.getD 0 + offsetX) (child.y.getD 0 + offsetY) ++
      routesWalkList rest offsetX offsetY

end

def collectEdgeRoutes (root : ElkNodeRes) : List (String × List Pt) :=
  routesWalk root 0 0

/-- `` `e${index}_${edge.from}_${edge.to}` ``. -/
def edgeId (index : Nat) (e : EdgeDef) : String :=
  "e" ++ toString index ++ "_" ++ e.from_ ++ "_" ++ e.to_

/-- The node mapping of `layoutFlowDiagram`. -/
def mapNode (nodePositions : List (String × PosBox)) (nodeDef : NodeDef) :
    LayoutNode :=
  let pos := mapGet nodePositions nodeDef.id
  { id := nodeDef.id
    x := (pos.map (fun p => p.x)).getD 0 + PADDING
    y := (pos.map (fun p => p.y)).getD 0 + PADDING
    width := (pos.map (fun p => p.width)).getD (estimateNodeWidth nodeDef.label)
    height := (pos.map (fun p => p.height)).getD NODE_HEIGHT
    label := nodeDef.label
    shape := nodeDef.shape
    color := nodeDef.color
    textColor := nodeDef.textColor }

/-- The edge mapping of `layoutFlowDiagram`, including the centre-to-centre
fallback when the service returned no route points. -/
def mapEdge (nodePositions : List (String × PosBox))
    (edgeRoutes : List (String × List Pt)) (i : Nat) (edgeDef : EdgeDef) :
    LayoutEdge :=
  let rawPoints := (mapGet edgeRoutes (edgeId i edgeDef)).getD []
  let points := rawPoints.map (fun p => (⟨p.x + PADDING, p.y + PADDING⟩ : Pt))
  let points :=
    if points.length = 0 then
      (match mapGet nodePositions edgeDef.from_ with
       | some srcPos =>
         [(⟨srcPos.x + srcPos.width / 2 + PADDING,
            srcPos.y + srcPos.height / 2 + PADDING⟩ : Pt)]
       | none => []) ++
      (match mapGet nodePositions edgeDef.to_ with
       | some tgtPos =>
         [(⟨tgtPos.x + tgtPos.width / 2 + PADDING,
            tgtPos.y + tgtPos.height / 2 + PADDING⟩ : Pt)]
       | none => [])
    else points
  { from_ := edgeDef.from_
    to_ := edgeDef.to_
    label := edgeDef.label
    style := edgeDef.style
    direction := edgeDef.direction
    color := edgeDef.color
    points := points }

/-- The group mapping of `layoutFlowDiagram`. -/
def mapGroup (groupPositions : List (String × PosBox)) (groupDef : GroupDef) :
    LayoutGroup :=
  let pos := mapGet groupPositions groupDef.id
  { id := groupDef.id
    label := groupDef.label
    x := (pos.map (fun p => p.x)).getD 0 + PADDING
    y := (pos.map (fun p => p.y)).getD 0 + PADDING
    width := (pos.map (fun p => p.width)).getD 0
    height := (pos.map (fun p => p.height)).getD 0
    color := groupDef.color }

/-- The post-processing of `layoutFlowDiagram`, from the service's result
tree to the `LayoutResult`. -/
def layoutFlowDiagramFrom (diagram : FlowDiagramDef) (result : ElkNodeRes) :
    LayoutResult :=
  let nodePositions := collectNodePositions result
  let groupPositions := collectGroupPositions result
  let edgeRoutes := collectEdgeRoutes result
  let layoutNodes := diagram.nodes.map (mapNode nodePositions)
  let layoutEdges := diagram.edges.enum.map
    (fun p => mapEdge nodePositions edgeRoutes p.1 p.2)
  let layoutGroups := diagram.groups.map (mapGroup groupPositions)
  let graphWidth := result.width.getD 0
  let graphHeight := result.height.getD 0
  { width := graphWidth + PADDING * 2
    height := graphHeight + PADDING * 2
    nodes := layoutNodes
    edges := layoutEdges
    groups := layoutGroups }

end FlowLayout

/-! ## The sequence-diagram half of `generateDiagram` (core/src/index.ts)

For a parsed sequence diagram, `renderDiagram` computes the (pure) sequence
layout and renders it; the flow half additionally goes through the external
layout service. -/

def generateSequenceSvg (M : JsMath) (d : SequenceDiagramDef) : RandM String :=
  renderSequenceDiagram M (SeqLayout.layoutSequenceDiagram d) d.style d.title

/-! ## Input schema (schema/types.ts zod schemas, schema/index.ts)

A model of JSON values and of the zod combinators the diagram schemas use:
objects with required, optional and defaulted fields, arrays, string
enums, literals and the discriminated union on `type`. -/

inductive Json where
  | null
  | bool (b : Bool)
  | num (q : ℚ)
  | str (s : String)
  | arr (elems : List Json)
  | obj (fields : List (String × Json))

def jlookup (fields : List (String × Json)) (key : String) : Option Json :=
  (fields.find? (fun f => f.1 == key)).map (fun f => f.2)

def parseStr : Json → Except String String
  | .str s => .ok s
  | _ => .error "expected string"

def parseNum : Json → Except String ℚ
  | .num q => .ok q
  | _ => .error "expected number"

/-- A required object field. -/
def reqField (fields : List (String × Json)) (key : String)
    (p : Json → Except String α) : Except String α :=
  match jlookup fields key with
  | some v => p v
  | none => .error ("missing required field " ++ key)

/-- An `.optional()` field: missing means `none`. -/
def optField (fields : List (String × Json)) (key : String)
    (p : Json → Except String α) : Except String (Option α) :=
  match jlookup fields key with
  | some v => (p v).map some
  | none => .ok none

/-- A `.default(d)` field: missing means the default. -/
def defField (fields : List (String × Json)) (key : String)
    (p : Json → Except String α) (d : α) : Except String α :=
  match jlookup fields key with
  | some v => p v
  | none => .ok d

def parseArrWith (p : Json → Except String α) : Json → Except String (List α)
  | .arr xs => xs.mapM p
  | _ => .error "expected array"

def parseShapeType : Json → Except String ShapeType
  | .str "rectangle" => .ok .rectangle
  | .str "ellipse" => .ok .ellipse
  | .str "diamond" => .ok .diamond
  | .str "cylinder" => .ok .cylinder
  | .str "cloud" => .ok .cloud
  | .str "hexagon" => .ok .hexagon
  | .str "parallelogram" => .ok .parallelogram
  | _ => .error "invalid shape"

def parseEdgeStyle : Json → Except String EdgeStyle
  | .str "solid" => .ok .solid
  | .str "dashed" => .ok .dashed
  | .str "dotted" => .ok .dotted
  | _ => .error "invalid edge style"

def parseArrowDirection : Json → Except String ArrowDirection
  | .str "forward" => .ok .forward
  | .str "backward" => .ok .backward
  | .str "both" => .ok .both
  | .str "none" => .ok .none
  | _ => .error "invalid arrow direction"

def parseTheme : Json → Except String Theme
  | .str "hand-drawn" => .ok .handDrawn
  | .str "clean" => .ok .clean
  | .str "minimal" => .ok .minimal
  | _ => .error "invalid theme"

def parseFlowDirection : Json → Except String FlowDirection
  | .str "TB" => .ok .TB
  | .str "LR" => .ok .LR
  | .str "BT" => .ok .BT
  | .str "RL" => .ok .RL
  | _ => .error "invalid direction"

def parseOutputFormat : Json → Except String OutputFormat
  | .str "svg" => .ok .svg
  | .str "png" => .ok .png
  | _ => .error "invalid output format"

/-- `NodeSchema`. -/
def parseNodeDef : Json → Except String NodeDef
  | .obj fields => do
    let id ← reqField fields "id" parseStr
    let label ← reqField fields "label" parseStr
    let shape ← defField fields "shape" parseShapeType .rectangle
    let color ← optField fields "color" parseStr
    let textColor ← optField fields "textColor" parseStr
    let width ← optField fields "width" parseNum
    let height ← optField fields "height" parseNum
    .ok { id := id, label := label, shape := shape, color := color,
          textColor := textColor, width := width, height := height }
  | _ => .error "expected object"

/-- `EdgeSchema`. -/
def parseEdgeDef : Json → Except String EdgeDef
  | .obj fields => do
    let f ← reqField fields "from" parseStr
    let t ← reqField fields "to" parseStr
    let label ← optField fields "label" parseStr
    let style ← defField fields "style" parseEdgeStyle .solid
    let direction ← defField fields "direction" parseArrowDirection .forward
    let color ← optField fields "color" parseStr
    .ok { from_ := f, to_ := t, label := label, style := style,
          direction := direction, color := color }
  | _ => .error "expected object"

/-- `GroupSchema`. -/
def parseGroupDef : Json → Except String GroupDef
  | .obj fields => do
    let id ← reqField fields "id" parseStr
    let label ← optField fields "label" parseStr
    let contains ← reqField fields "contains" (parseArrWith parseStr)
    let color ← optField fields "color" parseStr
    .ok { id := id, label := label, contains := contains, color := color }
  | _ => .error "expected object"

/-- `ParticipantSchema`. -/
def parseParticipantDef : Json → Except String ParticipantDef
  | .obj fields => do
    let id ← reqField fields "id" parseStr
    let label ← reqField fields "label" parseStr
    let color ← optField fields "color" parseStr
    .ok { id := id, label := label, color := color }
  | _ => .error "expected object"

/-- `MessageSchema`. -/
def parseMessageDef : Json → Except String MessageDef
  | .obj fields => do
    let f ← reqField fields "from" parseStr
    let t ← reqField fields "to" parseStr
    let label ← reqField fields "label" parseStr
    let style ← defField fields "style" parseEdgeStyle .solid
    let color ← optField fields "color" parseStr
    .ok { from_ := f, to_ := t, label := label, style := style,
          color := color }
  | _ => .error "expected object"

/-- `OutputOptions`. -/
def parseOutputOptions : Json → Except String OutputOptions
  | .obj fields => do
    let format ← defField fields "format" parseOutputFormat .svg
    let path ← optField fields "path" parseStr
    .ok { format := format, path := path }
  | _ => .error "expected object"

/-- A `z.literal(lit)` string field. -/
def parseLiteral (lit : String) : Json → Except String Unit
  | .str s => if s = lit then .ok () else .error ("expected literal " ++ lit)
  | _ => .error ("expected literal " ++ lit)

/-- `FlowDiagramSchema`: note that `nodes` is a plain required array with no
minimum length, while `edges` and `groups` default to `[]`. -/
def parseFlowDiagramSchema : Json → Except String FlowDiagramDef
  | .obj fields => do
    let _ ← reqField fields "type" (parseLiteral "flow")
    let title ← optField fields "title" parseStr
    let nodes ← reqField fields "nodes" (parseArrWith parseNodeDef)
    let edges ← defField fields "edges" (parseArrWith parseEdgeDef) []
    let groups ← defField fields "groups" (parseArrWith parseGroupDef) []
    let style ← defField fields "style" parseTheme .handDrawn
    let direction ← defField fields "direction" parseFlowDirection .TB
    let output ← optField fields "output" parseOutputOptions
    .ok { title := title, nodes := nodes, edges := edges, groups := groups,
          style := style, direction := direction, output := output }
  | _ => .error "expected object"

/-- `SequenceDiagramSchema`: `participants` and `messages` are plain
required arrays (`z.array(...)`), with no minimum length. -/
def parseSequenceDiagramSchema : Json → Except String SequenceDiagramDef
  | .obj fields => do
    let _ ← reqField fields "type" (parseLiteral "sequence")
    let title ← optField fields "title" parseStr
    let participants ← reqField fields "participants"
      (parseArrWith parseParticipantDef)
    let messages ← reqField fields "messages" (parseArrWith parseMessageDef)
    let style ← defField fields "style" parseTheme .handDrawn
    let output ← optField fields "output" parseOutputOptions
    .ok { title := title, participants := participants, messages := messages,
          style := style, output := output }
  | _ => .error "expected object"

/-- `parseDiagram(input)`: `DiagramSchema.parse`, a discriminated union on
the `type` field. -/
def parseDiagram : Json → Except String DiagramDef
  | .obj fields =>
    match jlookup fields "type" with
    | some (.str "flow") =>
      (parseFlowDiagramSchema (.obj fields)).map .flow
    | some (.str "sequence") =>
      (parseSequenceDiagramSchema (.obj fields)).map .sequence
    | _ => .error "invalid discriminator value"
  | _ => .error "expected object"

/-! ## Auxiliary definitions for the verification statements -/

/-- The seed after `n` calls to `pseudoRandom` starting from the reset
state 42. -/
def rngState : Nat → Nat
  | 0 => 42
  | n + 1 => nextSeed (rngState n)

/-- Specification of `escapeXml`, per character: the five special characters
become their XML entities in a single pass, every other character is kept.
`escapeXml` is proved equal to the single traversal with this map. -/
def escapeCharSpec (c : Char) : List Char :=
  if c = '&' then "&amp;".data
  else if c = '<' then "&lt;".data
  else if c = '>' then "&gt;".data
  else if c = '"' then "&quot;".data
  else if c = '\'' then "&apos;".data
  else [c]

/-- A raw sequence-diagram input with the given participants and messages
arrays (and no other fields). -/
def mkSeqJson (ps msgs : List Json) : Json :=
  .obj [("type", .str "sequence"), ("participants", .arr ps),
        ("messages", .arr msgs)]

/-! ### Concrete instances used by witnesses and counterexamples -/

/-- A trivial math oracle for concrete evaluations (its values only matter
to jitter-free emissions, which never consult it). -/
def mathZero : JsMath :=
  { cos := fun _ => 0, sin := fun _ => 0, atan2 := fun _ _ => 0, pi := 0 }

/-- A node whose label is longer than 20 characters and contains a space,
so `renderText` word-wraps it into two `<tspan>` lines. -/
def exNodeLong : LayoutNode :=
  { id := "n1", x := 40, y := 40, width := 120, height := 60,
    label := "aaaaaaaaaa bbbbbbbbbb", shape := .rectangle }

def exLayoutLong : LayoutResult :=
  { width := 300, height := 200, nodes := [exNodeLong], edges := [],
    groups := [] }

/-- A short-labelled node whose centred text lands at integer coordinates. -/
def exNodeShort : LayoutNode :=
  { id := "n1", x := 40, y := 40, width := 120, height := 60,
    label := "Hi", shape := .rectangle }

def exLayoutShort : LayoutResult :=
  { width := 300, height := 200, nodes := [exNodeShort], edges := [],
    groups := [] }

/-- A sequence diagram with a self-message followed by a normal message. -/
def exSeqD : SequenceDiagramDef :=
  { title := none
    participants :=
      [{ id := "a", label := "Alice" }, { id := "b", label := "Bob" }]
    messages :=
      [{ from_ := "a", to_ := "a", label := "think" },
       { from_ := "a", to_ := "b", label := "ask" }] }

/-- Participants for the dangling-message scenario. -/
def exPs : List SequenceParticipant :=
  [{ id := "alice", label := "Alice", x := 90, topY := 40, bottomY := 220,
     width := 100 }]

/-- A message whose `from` id names no laid-out participant. -/
def exDanglingMsg : SequenceMessage :=
  { from_ := "bob", to_ := "alice", label := "hello", y := 130,
    style := .solid, isSelfMessage := false }

/-- A flow diagram with one node, one edge and one group, for the
flow-layout witness. -/
def exFlowD : FlowDiagramDef :=
  { nodes := [{ id := "a", label := "A" }, { id := "b", label := "B" }]
    edges := [{ from_ := "a", to_ := "b" }]
    groups := [{ id := "g1", contains := ["a"] }] }

/-- A layout-service result tree for `exFlowD`: the group compound holds
node `a`, node `b` sits at the root, and the edge has one routed section. -/
def exElk : FlowLayout.ElkNodeRes :=
  .mk "root" none none (some 260) (some 200)
    (some
      [.mk "b" (some 20) (some 120) (some 120) (some 60) none none,
       .mk "g1" (some 10) (some 10) (some 180) (some 100)
         (some [.mk "a" (some 30) (some 30) (some 120) (some 60) none none])
         none])
    (some
      [{ id := "e0_a_b",
         sections :=
           some [{ startPoint := ⟨80, 100⟩, bendPoints := some [⟨80, 110⟩],
                   endPoint := ⟨80, 120⟩ }] }])

/-- The raw sequence input with zero participants. -/
def exSeqZeroJson : Json := mkSeqJson [] []

/-! # Theorems -/

/-! ## The RandM monad, unfolded -/

theorem RandM_bind_apply (m : RandM α) (f : α → RandM β) (s : Nat) :
    (m >>= f) s = f (m s).1 (m s).2 := rfl

theorem RandM_pure_apply (a : α) (s : Nat) : (pure a : RandM α) s = (a, s) :=
  rfl

/-! ## C9: the seeded RNG -/

theorem nextSeed_lt (s : Nat) : nextSeed s < 2147483647 :=
  Nat.mod_lt _ (by norm_num)

/-- The key arithmetic fact: 16807 is invertible modulo 2147483647 (with
inverse 1407677000), so multiplication by it cannot send a nonzero residue
to zero. -/
theorem nextSeed_pos {s : Nat} (h1 : 1 ≤ s) (h2 : s ≤ 2147483646) :
    1 ≤ nextSeed s := by
  rcases Nat.eq_zero_or_pos (nextSeed s) with h0 | h0
  · exfalso
    have hdvd : 2147483647 ∣ s * 16807 :=
      Nat.dvd_of_mod_eq_zero (by simpa [nextSeed] using h0)
    have hmul : 2147483647 ∣ s * 16807 * 1407677000 := hdvd.mul_right _
    have hme : (16807 * 1407677000) % 2147483647 = 1 % 2147483647 := by decide
    have h3 : s * (16807 * 1407677000) ≡ s * 1 [MOD 2147483647] :=
      Nat.ModEq.mul_left s hme
    have h4 : s * (16807 * 1407677000) ≡ 0 [MOD 2147483647] := by
      rw [← Nat.mul_assoc]
      exact (Nat.modEq_zero_iff_dvd).2 hmul
    have h5 : s ≡ 0 [MOD 2147483647] := by
      have h6 := h3.symm.trans h4
      simpa using h6
    have h7 : 2147483647 ∣ s := (Nat.modEq_zero_iff_dvd).1 h5
    have h8 : 2147483647 ≤ s := Nat.le_of_dvd (by omega) h7
    omega
  · exact h0

theorem rngState_bounds : ∀ n : Nat, 1 ≤ rngState n ∧ rngState n ≤ 2147483646 := by
  intro n
  induction n with
  | zero => refine ⟨by norm_num [rngState], by norm_num [rngState]⟩
  | succ n ih =>
    have hlt := nextSeed_lt (rngState n)
    have hpos := nextSeed_pos ih.1 ih.2
    exact ⟨hpos, by simp only [rngState]; omega⟩

theorem rngState_succ (n : Nat) : rngState (n + 1) = nextSeed (rngState n) :=
  rfl

theorem pseudoRandom_apply (s : Nat) :
    pseudoRandom s = ((((nextSeed s : ℚ)) - 1) / 2147483646, nextSeed s) :=
  rfl

/-- C9: starting from the reset state 42, every `pseudoRandom` call updates
the state by `s ← (s · 16807) mod 2147483647` and returns
`(s − 1) / 2147483646`; after any number of calls the state stays in
`[1, 2147483646]` and the returned value lies in `[0, 1)`. -/
theorem C9_pseudoRandom_range :
    ∀ n s : Nat,
      (resetSeed s).2 = rngState 0 ∧
      (1 ≤ rngState n ∧ rngState n ≤ 2147483646) ∧
      pseudoRandom (rngState n) =
        (((rngState (n + 1) : ℚ) - 1) / 2147483646, rngState (n + 1)) ∧
      0 ≤ (pseudoRandom (rngState n)).1 ∧ (pseudoRandom (rngState n)).1 < 1 := by
  intro n s
  obtain ⟨hlo, hhi⟩ := rngState_bounds (n + 1)
  have hq1 : (1 : ℚ) ≤ (rngState (n + 1) : ℚ) := by exact_mod_cast hlo
  have hq2 : (rngState (n + 1) : ℚ) ≤ 2147483646 := by exact_mod_cast hhi
  refine ⟨rfl, rngState_bounds n, rfl, ?_, ?_⟩
  · show (0 : ℚ) ≤ ((nextSeed (rngState n) : ℚ) - 1) / 2147483646
    rw [← rngState_succ]
    have : (0 : ℚ) ≤ (rngState (n + 1) : ℚ) - 1 := by linarith
    positivity
  · show ((nextSeed (rngState n) : ℚ) - 1) / 2147483646 < 1
    rw [← rngState_succ]
    rw [div_lt_one (by norm_num)]
    linarith

/-! ## C4: jitter and jitterPoint -/

/-- C4 (amended): for a nonzero amount, `jitter` consumes exactly one draw
and equals `v + (rand − 0.5)·2·amount`, and `jitterPoint` consumes exactly
two consecutive draws (x first, then y); for `amount = 0`, both return
their inputs unchanged and consume no draw at all. -/
theorem C4_jitter_amended :
    ∀ (v x y amount : ℚ) (s : Nat),
      (amount ≠ 0 →
        jitter v amount s =
          (v + ((pseudoRandom s).1 - 0.5) * 2 * amount, (pseudoRandom s).2) ∧
        jitterPoint x y amount s =
          ((x + ((pseudoRandom s).1 - 0.5) * 2 * amount,
            y + ((pseudoRandom (pseudoRandom s).2).1 - 0.5) * 2 * amount),
           (pseudoRandom (pseudoRandom s).2).2)) ∧
      jitter v 0 s = (v, s) ∧ jitterPoint x y 0 s = ((x, y), s) := by
  intro v x y amount s
  refine ⟨fun h => ⟨?_, ?_⟩, rfl, rfl⟩
  · simp only [jitter, if_neg h, RandM_bind_apply, RandM_pure_apply]
  · simp only [jitterPoint, jitter, if_neg h, RandM_bind_apply,
      RandM_pure_apply]

/-- C4 counterexample: with `amount = 0`, `jitterPoint` leaves the RNG
state untouched (no draws at all), whereas two consecutive draws from the
same state would move it. -/
theorem C4_counterexample :
    jitterPoint (1 : ℚ) 2 0 42 = ((1, 2), 42) ∧
    (pseudoRandom ((pseudoRandom 42).2)).2 ≠ 42 := by
  refine ⟨rfl, by decide⟩

/-- C4 witness: the amended statement applied at `v = 1`, `x = 2`, `y = 3`,
`amount = 1`, state 42. -/
theorem C4_witness :
    jitter (1 : ℚ) 1 42 =
      (1 + ((pseudoRandom 42).1 - 0.5) * 2 * 1, (pseudoRandom 42).2) ∧
    jitterPoint (2 : ℚ) 3 0 42 = ((2, 3), 42) :=
  ⟨((C4_jitter_amended 1 2 3 1 42).1 (by norm_num)).1,
   (C4_jitter_amended 1 2 3 1 42).2.2⟩

/-! ## C1: render determinism -/

/-- C1: both renderers reset the RNG seed to 42 at entry, so the emitted
SVG string is independent of the incoming seed state; in particular
rendering the same (sequence) diagram twice yields byte-identical SVG. -/
theorem C1_render_deterministic :
    ∀ (M : JsMath) (layout : LayoutResult) (seqLayout : SequenceLayoutResult)
      (theme : Theme) (title : Option String) (d : SequenceDiagramDef)
      (s₁ s₂ : Nat),
      (renderFlowDiagram M layout theme title s₁).1 =
        (renderFlowDiagram M layout theme title s₂).1 ∧
      (renderSequenceDiagram M seqLayout theme title s₁).1 =
        (renderSequenceDiagram M seqLayout theme title s₂).1 ∧
      (generateSequenceSvg M d s₁).1 = (generateSequenceSvg M d s₂).1 := by
  intro M layout seqLayout theme title d s₁ s₂
  exact ⟨rfl, rfl, rfl⟩

/-! ## C10: escapeXml leaves no markup-significant characters -/

theorem data_replaceAllChar (c : Char) (rep : String) (s : String) :
    (replaceAllChar c rep s).data =
      s.data.flatMap (fun ch => if ch = c then rep.data else [ch]) := rfl

theorem flatMap_chain (l : List α) (f : α → List β) (g : β → List γ) :
    (l.flatMap f).flatMap g = l.flatMap (fun a => (f a).flatMap g) := by
  induction l with
  | nil => rfl
  | cons x xs ih => simp [List.flatMap_cons, List.flatMap_append, ih]

/-- The five sequential passes act on each original character exactly as the
single-pass entity map. -/
theorem escape_char_composite (ch : Char) :
    ((if ch = '&' then "&amp;".data else [ch]).flatMap fun a =>
      (if a = '<' then "&lt;".data else [a]).flatMap fun a =>
        (if a = '>' then "&gt;".data else [a]).flatMap fun a =>
          (if a = '"' then "&quot;".data else [a]).flatMap fun a =>
            if a = '\'' then "&apos;".data else [a]) = escapeCharSpec ch := by
  by_cases h1 : ch = '&'
  · subst h1; decide
  by_cases h2 : ch = '<'
  · subst h2; decide
  by_cases h3 : ch = '>'
  · subst h3; decide
  by_cases h4 : ch = '"'
  · subst h4; decide
  by_cases h5 : ch = '\''
  · subst h5; decide
  simp [escapeCharSpec, h1, h2, h3, h4, h5]

theorem escapeCharSpec_no_special (ch : Char) :
    ∀ x ∈ escapeCharSpec ch, x ≠ '<' ∧ x ≠ '>' ∧ x ≠ '"' ∧ x ≠ '\'' := by
  unfold escapeCharSpec
  by_cases h1 : ch = '&'
  · subst h1; decide
  by_cases h2 : ch = '<'
  · subst h2; decide
  by_cases h3 : ch = '>'
  · subst h3; decide
  by_cases h4 : ch = '"'
  · subst h4; decide
  by_cases h5 : ch = '\''
  · subst h5; decide
  simp only [h1, h2, h3, h4, h5, if_false]
  intro x hx
  rw [List.mem_singleton] at hx
  subst hx
  exact ⟨h2, h3, h4, h5⟩

theorem escapeXml_data (s : String) :
    (escapeXml s).data = s.data.flatMap escapeCharSpec := by
  show (replaceAllChar '\'' "&apos;"
    (replaceAllChar '"' "&quot;"
      (replaceAllChar '>' "&gt;"
        (replaceAllChar '<' "&lt;"
          (replaceAllChar '&' "&amp;" s))))).data = _
  rw [data_replaceAllChar, data_replaceAllChar, data_replaceAllChar,
    data_replaceAllChar, data_replaceAllChar, flatMap_chain, flatMap_chain,
    flatMap_chain, flatMap_chain]
  exact List.flatMap_congr (fun ch _ => escape_char_composite ch)

/-- C10: `escapeXml` is exactly the per-character entity substitution, and
its output never contains `<`, `>`, `"` or `'`, so an escaped user string
cannot break out of an attribute value or element body. -/
theorem C10_escapeXml_safe (s : String) :
    escapeXml s = String.mk (s.data.flatMap escapeCharSpec) ∧
    ∀ c ∈ (escapeXml s).data, c ≠ '<' ∧ c ≠ '>' ∧ c ≠ '"' ∧ c ≠ '\'' := by
  have hdata := escapeXml_data s
  constructor
  · rw [← hdata]
  · intro c hc
    rw [hdata] at hc
    obtain ⟨a, _, ha⟩ := List.mem_flatMap.1 hc
    exact escapeCharSpec_no_special a c ha

/-! ## C7: the sequence schema imposes no minimum participant count -/

theorem mapM_ok_of_forall_ok {α : Type} {p : Json → Except String α} :
    ∀ l : List Json, (∀ x ∈ l, ∃ v, p x = .ok v) →
      ∃ vs : List α, l.mapM p = .ok vs ∧ vs.length = l.length := by
  intro l h
  induction l with
  | nil => exact ⟨[], rfl, rfl⟩
  | cons x xs ih =>
    obtain ⟨v, hv⟩ := h x (List.mem_cons_self x xs)
    obtain ⟨vs, hvs, hlen⟩ := ih (fun y hy => h y (List.mem_cons_of_mem _ hy))
    refine ⟨v :: vs, ?_, by simp [hlen]⟩
    rw [List.mapM_cons, hv, hvs]
    rfl

/-- C7 (amended): `parseDiagram` accepts a sequence input with any number
of participants — the schema has no minimum, so zero participants parse
successfully. -/
theorem C7_participants_no_minimum :
    ∀ ps msgs : List Json,
      (∀ x ∈ ps, ∃ v, parseParticipantDef x = .ok v) →
      (∀ x ∈ msgs, ∃ v, parseMessageDef x = .ok v) →
      ∃ d : SequenceDiagramDef,
        parseDiagram (mkSeqJson ps msgs) = .ok (.sequence d) ∧
        d.participants.length = ps.length ∧
        d.messages.length = msgs.length := by
  intro ps msgs hp hm
  obtain ⟨pvs, hpvs, hplen⟩ := mapM_ok_of_forall_ok ps hp
  obtain ⟨mvs, hmvs, hmlen⟩ := mapM_ok_of_forall_ok msgs hm
  refine ⟨{ title := none, participants := pvs, messages := mvs,
            style := .handDrawn, output := none }, ?_, hplen, hmlen⟩
  have hdisc : parseDiagram (mkSeqJson ps msgs) =
      (parseSequenceDiagramSchema (mkSeqJson ps msgs)).map DiagramDef.sequence :=
    rfl
  have hstep : parseSequenceDiagramSchema (mkSeqJson ps msgs) =
      (ps.mapM parseParticipantDef) >>= (fun pvs =>
        (msgs.mapM parseMessageDef) >>= (fun mvs =>
          Except.ok { title := none, participants := pvs, messages := mvs,
                      style := .handDrawn, output := none })) := rfl
  rw [hdisc, hstep, hpvs, hmvs]
  rfl

/-- C7 counterexample: an input of type `sequence` with zero participants is
accepted by `parseDiagram`, not rejected. -/
theorem C7_counterexample :
    parseDiagram exSeqZeroJson =
      .ok (.sequence { title := none, participants := [], messages := [],
                       style := .handDrawn, output := none }) := rfl

/-- C7 witness: the amended theorem applied at the empty participants and
messages arrays. -/
theorem C7_witness :
    ∃ d : SequenceDiagramDef,
      parseDiagram (mkSeqJson [] []) = .ok (.sequence d) ∧
      d.participants.length = 0 ∧ d.messages.length = 0 :=
  C7_participants_no_minimum [] []
    (fun x hx => absurd hx (List.not_mem_nil x))
    (fun x hx => absurd hx (List.not_mem_nil x))

/-! ## C8: dangling message endpoints are silently skipped -/

/-- C8: a message whose `from` or `to` id names no laid-out participant
renders to the empty string without touching the RNG state, and the message
loop therefore produces exactly the other messages' renderings with an
empty entry in the skipped position. -/
theorem C8_dangling_message :
    ∀ (M : JsMath) (m : SequenceMessage) (ps : List SequenceParticipant)
      (config : ThemeConfig) (pre post : List SequenceMessage) (s : Nat),
      findParticipant ps m.from_ = none ∨ findParticipant ps m.to_ = none →
      renderMessage M m ps config s = ("", s) ∧
      mapRandM (fun msg => renderMessage M msg ps config) (pre ++ m :: post) s =
        ((mapRandM (fun msg => renderMessage M msg ps config) pre s).1 ++
          "" :: (mapRandM (fun msg => renderMessage M msg ps config) post
            (mapRandM (fun msg => renderMessage M msg ps config) pre s).2).1,
         (mapRandM (fun msg => renderMessage M msg ps config) post
            (mapRandM (fun msg => renderMessage M msg ps config) pre s).2).2) := by
  intro M m ps config pre post s h
  have h1 : ∀ s' : Nat, renderMessage M m ps config s' = ("", s') := by
    intro s'
    rcases h with h | h
    · unfold renderMessage
      rw [h]
      cases findParticipant ps m.to_ <;> rfl
    · unfold renderMessage
      rw [h]
      cases findParticipant ps m.from_ <;> rfl
  refine ⟨h1 s, ?_⟩
  induction pre generalizing s with
  | nil =>
    simp only [List.nil_append, mapRandM, RandM_bind_apply, RandM_pure_apply,
      h1]
  | cons a pre ih =>
    simp only [List.cons_append, mapRandM, RandM_bind_apply, RandM_pure_apply,
      List.append_eq, ih]

/-- C8 witness: the theorem applied to a concrete dangling message. -/
theorem C8_witness :
    renderMessage mathZero exDanglingMsg exPs (getThemeConfig .clean) 42 =
      ("", 42) :=
  (C8_dangling_message mathZero exDanglingMsg exPs (getThemeConfig .clean)
    [] [] 42 (Or.inl rfl)).1

/-! ## C5: sequence message Y positions -/

theorem lmf_length (y : ℚ) (ms : List MessageDef) :
    (SeqLayout.layoutMessagesFrom y ms).length = ms.length := by
  induction ms generalizing y with
  | nil => rfl
  | cons m ms ih => simp [SeqLayout.layoutMessagesFrom, ih]

theorem lmf_get_zero (y : ℚ) (ms : List MessageDef)
    (h : 0 < (SeqLayout.layoutMessagesFrom y ms).length) :
    ((SeqLayout.layoutMessagesFrom y ms).get ⟨0, h⟩).y = y := by
  cases ms with
  | nil => simp [SeqLayout.layoutMessagesFrom] at h
  | cons m ms => rfl

theorem lmf_step (ms : List MessageDef) :
    ∀ (y : ℚ) (i : Nat) (h : i + 1 < (SeqLayout.layoutMessagesFrom y ms).length),
      ((SeqLayout.layoutMessagesFrom y ms).get ⟨i + 1, h⟩).y =
        ((SeqLayout.layoutMessagesFrom y ms).get ⟨i, Nat.lt_of_succ_lt h⟩).y +
          (if ((SeqLayout.layoutMessagesFrom y ms).get
              ⟨i, Nat.lt_of_succ_lt h⟩).isSelfMessage then 80 else 50) := by
  induction ms with
  | nil => intro y i h; simp [SeqLayout.layoutMessagesFrom] at h
  | cons m ms ih =>
    intro y i h
    cases i with
    | zero =>
      simp only [SeqLayout.layoutMessagesFrom, List.get_cons_succ,
        List.get_cons_zero, lmf_get_zero]
      by_cases hself : (m.from_ == m.to_) = true
      · simp only [hself, if_true]
        norm_num [SeqLayout.MESSAGE_SPACING,
          SeqLayout.SELF_MESSAGE_HEIGHT_OFFSET]
        rw [beq_iff_eq] at hself
        simp [hself]
      · simp only [hself, if_false]
        norm_num [SeqLayout.MESSAGE_SPACING]
        rw [beq_iff_eq] at hself
        simp [hself]
    | succ n =>
      simp only [SeqLayout.layoutMessagesFrom, List.get_cons_succ]
      exact ih _ n _

theorem lmf_le_succ (ms : List MessageDef) (y : ℚ) (i : Nat)
    (h : i + 1 < (SeqLayout.layoutMessagesFrom y ms).length) :
    ((SeqLayout.layoutMessagesFrom y ms).get ⟨i, Nat.lt_of_succ_lt h⟩).y ≤
      ((SeqLayout.layoutMessagesFrom y ms).get ⟨i + 1, h⟩).y := by
  rw [lmf_step]
  have hnn : (0 : ℚ) ≤
      if ((SeqLayout.layoutMessagesFrom y ms).get
          ⟨i, Nat.lt_of_succ_lt h⟩).isSelfMessage then (80 : ℚ) else 50 := by
    split <;> norm_num
  linarith

theorem lmf_mono (ms : List MessageDef) (y : ℚ) :
    ∀ (k i : Nat) (h : i + k < (SeqLayout.layoutMessagesFrom y ms).length),
      ((SeqLayout.layoutMessagesFrom y ms).get
          ⟨i, by omega⟩).y ≤
        ((SeqLayout.layoutMessagesFrom y ms).get ⟨i + k, h⟩).y := by
  intro k
  induction k with
  | zero => intro i h; exact le_refl _
  | succ n ih =>
    intro i h
    have h1 : i + n < (SeqLayout.layoutMessagesFrom y ms).length := by omega
    have h2 : i + n + 1 < (SeqLayout.layoutMessagesFrom y ms).length := by
      omega
    calc ((SeqLayout.layoutMessagesFrom y ms).get ⟨i, _⟩).y
        ≤ ((SeqLayout.layoutMessagesFrom y ms).get ⟨i + n, h1⟩).y := ih i h1
      _ ≤ ((SeqLayout.layoutMessagesFrom y ms).get ⟨i + n + 1, h2⟩).y :=
          lmf_le_succ ms y (i + n) h2
      _ = ((SeqLayout.layoutMessagesFrom y ms).get ⟨i + (n + 1), h⟩).y := rfl

/-- C5: the first laid-out message sits at `startY + 40 + 50`; each later
message sits 50 below the previous one (80 when the previous message is a
self-message); consequently message Y values are monotonically
non-decreasing in input order. -/
theorem C5_message_y_positions :
    ∀ d : SequenceDiagramDef,
      (∀ h : 0 < (SeqLayout.layoutSequenceDiagram d).messages.length,
        ((SeqLayout.layoutSequenceDiagram d).messages.get ⟨0, h⟩).y =
          SeqLayout.seqStartY d + 40 + 50) ∧
      (∀ (i : Nat)
        (h : i + 1 < (SeqLayout.layoutSequenceDiagram d).messages.length),
        ((SeqLayout.layoutSequenceDiagram d).messages.get ⟨i + 1, h⟩).y =
          ((SeqLayout.layoutSequenceDiagram d).messages.get
              ⟨i, Nat.lt_of_succ_lt h⟩).y +
            (if ((SeqLayout.layoutSequenceDiagram d).messages.get
                ⟨i, Nat.lt_of_succ_lt h⟩).isSelfMessage then 80 else 50)) ∧
      (∀ (i j : Nat) (hij : i ≤ j)
        (hj : j < (SeqLayout.layoutSequenceDiagram d).messages.length),
        ((SeqLayout.layoutSequenceDiagram d).messages.get
            ⟨i, lt_of_le_of_lt hij hj⟩).y ≤
          ((SeqLayout.layoutSequenceDiagram d).messages.get ⟨j, hj⟩).y) := by
  intro d
  refine ⟨fun h => lmf_get_zero _ _ h, fun i h => lmf_step _ _ i h,
    fun i j hij hj => ?_⟩
  obtain ⟨k, rfl⟩ := Nat.exists_eq_add_of_le hij
  exact lmf_mono d.messages _ k i hj

/-- C5 witness: the theorem applied to a two-message diagram whose first
message is a self-message. -/
theorem C5_witness :
    (∃ h : 0 < (SeqLayout.layoutSequenceDiagram exSeqD).messages.length,
      ((SeqLayout.layoutSequenceDiagram exSeqD).messages.get ⟨0, h⟩).y =
        SeqLayout.seqStartY exSeqD + 40 + 50) ∧
    (∃ h : 0 + 1 < (SeqLayout.layoutSequenceDiagram exSeqD).messages.length,
      ((SeqLayout.layoutSequenceDiagram exSeqD).messages.get ⟨0 + 1, h⟩).y =
        ((SeqLayout.layoutSequenceDiagram exSeqD).messages.get
            ⟨0, Nat.lt_of_succ_lt h⟩).y +
          (if ((SeqLayout.layoutSequenceDiagram exSeqD).messages.get
              ⟨0, Nat.lt_of_succ_lt h⟩).isSelfMessage then 80 else 50)) ∧
    (∃ hj : 1 < (SeqLayout.layoutSequenceDiagram exSeqD).messages.length,
      ((SeqLayout.layoutSequenceDiagram exSeqD).messages.get
          ⟨0, lt_of_le_of_lt (by omega) hj⟩).y ≤
        ((SeqLayout.layoutSequenceDiagram exSeqD).messages.get ⟨1, hj⟩).y) :=
  ⟨⟨by decide, (C5_message_y_positions exSeqD).1 (by decide)⟩,
   ⟨by decide, (C5_message_y_positions exSeqD).2.1 0 (by decide)⟩,
   ⟨by decide, (C5_message_y_positions exSeqD).2.2 0 1 (by omega) (by decide)⟩⟩

/-! ## C6: the flow layout adds PADDING to every service coordinate -/

/-- C6: every coordinate taken from the layout service's result — node and
group positions (0 when the service returned none) and every edge route
point, including the synthesized centre-to-centre fallback — is shifted by
`PADDING = 40`, and the total size is the service's root size plus
`2·PADDING` per axis. -/
theorem C6_flow_padding :
    ∀ (diagram : FlowDiagramDef) (result : FlowLayout.ElkNodeRes),
      (FlowLayout.layoutFlowDiagramFrom diagram result).width =
          result.width.getD 0 + FlowLayout.PADDING * 2 ∧
      (FlowLayout.layoutFlowDiagramFrom diagram result).height =
          result.height.getD 0 + FlowLayout.PADDING * 2 ∧
      (∀ n ∈ (FlowLayout.layoutFlowDiagramFrom diagram result).nodes,
        ∃ base : ℚ × ℚ,
          n.x = base.1 + FlowLayout.PADDING ∧
          n.y = base.2 + FlowLayout.PADDING ∧
          (match FlowLayout.mapGet
              (FlowLayout.collectNodePositions result) n.id with
           | some p => base = (p.x, p.y)
           | none => base = (0, 0))) ∧
      (∀ g ∈ (FlowLayout.layoutFlowDiagramFrom diagram result).groups,
        ∃ base : ℚ × ℚ,
          g.x = base.1 + FlowLayout.PADDING ∧
          g.y = base.2 + FlowLayout.PADDING ∧
          (match FlowLayout.mapGet
              (FlowLayout.collectGroupPositions result) g.id with
           | some p => base = (p.x, p.y)
           | none => base = (0, 0))) ∧
      (∀ (i : Nat)
        (h : i < (FlowLayout.layoutFlowDiagramFrom diagram result).edges.length)
        (h' : i < diagram.edges.length),
        ((FlowLayout.layoutFlowDiagramFrom diagram result).edges.get
            ⟨i, h⟩).points =
          (let eDef := diagram.edges.get ⟨i, h'⟩
           let raw := (FlowLayout.mapGet (FlowLayout.collectEdgeRoutes result)
             (FlowLayout.edgeId i eDef)).getD []
           if raw.length = 0 then
             (match FlowLayout.mapGet
                 (FlowLayout.collectNodePositions result) eDef.from_ with
              | some srcPos =>
                [(⟨srcPos.x + srcPos.width / 2 + FlowLayout.PADDING,
                   srcPos.y + srcPos.height / 2 + FlowLayout.PADDING⟩ : Pt)]
              | none => []) ++
             (match FlowLayout.mapGet
                 (FlowLayout.collectNodePositions result) eDef.to_ with
              | some tgtPos =>
                [(⟨tgtPos.x + tgtPos.width / 2 + FlowLayout.PADDING,
                   tgtPos.y + tgtPos.height / 2 + FlowLayout.PADDING⟩ : Pt)]
              | none => [])
           else
             raw.map (fun p =>
               (⟨p.x + FlowLayout.PADDING, p.y + FlowLayout.PADDING⟩ : Pt)))) := by
  intro diagram result
  refine ⟨rfl, rfl, ?_, ?_, ?_⟩
  · intro n hn
    obtain ⟨nd, hnd, rfl⟩ := List.mem_map.1 hn
    rcases hp : FlowLayout.mapGet (FlowLayout.collectNodePositions result)
      nd.id with _ | p
    · refine ⟨(0, 0), ?_, ?_, ?_⟩ <;> simp [FlowLayout.mapNode, hp]
    · refine ⟨(p.x, p.y), ?_, ?_, ?_⟩ <;> simp [FlowLayout.mapNode, hp]
  · intro g hg
    obtain ⟨gd, hgd, rfl⟩ := List.mem_map.1 hg
    rcases hp : FlowLayout.mapGet (FlowLayout.collectGroupPositions result)
      gd.id with _ | p
    · refine ⟨(0, 0), ?_, ?_, ?_⟩ <;> simp [FlowLayout.mapGroup, hp]
    · refine ⟨(p.x, p.y), ?_, ?_, ?_⟩ <;> simp [FlowLayout.mapGroup, hp]
  · intro i h h'
    have hL : (FlowLayout.layoutFlowDiagramFrom diagram result).edges.get
        ⟨i, h⟩ =
        FlowLayout.mapEdge (FlowLayout.collectNodePositions result)
          (FlowLayout.collectEdgeRoutes result) i
          (diagram.edges.get ⟨i, h'⟩) := by
      show (diagram.edges.enum.map _).get ⟨i, _⟩ = _
      rw [List.get_eq_getElem, List.getElem_map, List.getElem_enum]
      rfl
    rw [hL]
    simp only [FlowLayout.mapEdge, List.length_map]

/-- C6 witness: the theorem applied to a concrete diagram and a concrete
service result, at the first node and the (routed) first edge. -/
theorem C6_witness :
    (∃ base : ℚ × ℚ,
      (FlowLayout.mapNode (FlowLayout.collectNodePositions exElk)
          { id := "a", label := "A" }).x = base.1 + FlowLayout.PADDING ∧
      (FlowLayout.mapNode (FlowLayout.collectNodePositions exElk)
          { id := "a", label := "A" }).y = base.2 + FlowLayout.PADDING ∧
      (match FlowLayout.mapGet (FlowLayout.collectNodePositions exElk)
          (FlowLayout.mapNode (FlowLayout.collectNodePositions exElk)
            { id := "a", label := "A" }).id with
       | some p =>
         base = (p.x, p.y)
       | none => base = (0, 0))) ∧
    ((FlowLayout.layoutFlowDiagramFrom exFlowD exElk).edges.get
        ⟨0, by decide⟩).points =
      (let eDef := exFlowD.edges.get ⟨0, by decide⟩
       let raw := (FlowLayout.mapGet (FlowLayout.collectEdgeRoutes exElk)
         (FlowLayout.edgeId 0 eDef)).getD []
       if raw.length = 0 then
         (match FlowLayout.mapGet
             (FlowLayout.collectNodePositions exElk) eDef.from_ with
          | some srcPos =>
            [(⟨srcPos.x + srcPos.width / 2 + FlowLayout.PADDING,
               srcPos.y + srcPos.height / 2 + FlowLayout.PADDING⟩ : Pt)]
          | none => []) ++
         (match FlowLayout.mapGet
             (FlowLayout.collectNodePositions exElk) eDef.to_ with
          | some tgtPos =>
            [(⟨tgtPos.x + tgtPos.width / 2 + FlowLayout.PADDING,
               tgtPos.y + tgtPos.height / 2 + FlowLayout.PADDING⟩ : Pt)]
          | none => [])
       else
         raw.map (fun p =>
           (⟨p.x + FlowLayout.PADDING, p.y + FlowLayout.PADDING⟩ : Pt))) :=
  ⟨(C6_flow_padding exFlowD exElk).2.2.1
      (FlowLayout.mapNode (FlowLayout.collectNodePositions exElk)
        { id := "a", label := "A" })
      (List.mem_cons_self _ _),
   (C6_flow_padding exFlowD exElk).2.2.2.2 0 (by decide) (by decide)⟩

/-! ## C3: number formatting of coordinate emissions -/

theorem str_data_append (a b : String) : (a ++ b).data = a.data ++ b.data :=
  rfl

theorem joinSep_cons (sep a : String) (rest : List String) (h : rest ≠ []) :
    joinSep sep (a :: rest) = a ++ sep ++ joinSep sep rest := by
  cases rest with
  | nil => exact absurd rfl h
  | cons b bs => rfl

theorem prefix_joinSep_cons (sep a : String) (rest : List String)
    (h : rest ≠ []) : a.data <+: (joinSep sep (a :: rest)).data := by
  rw [joinSep_cons sep a rest h, str_data_append, str_data_append,
    List.append_assoc]
  exact List.prefix_append _ _

theorem C3fmt_line :
    ∀ (x1 y1 x2 y2 : ℚ) (config : ThemeConfig) (sc : String)
      (da : Option String) (s : Nat),
      ¬ config.jitterAmount > 0 →
      sketchyLine x1 y1 x2 y2 config sc da s =
        ("<line x1=\"" ++ toFixed1 x1 ++ "\" y1=\"" ++ toFixed1 y1 ++
          "\" x2=\"" ++ toFixed1 x2 ++ "\" y2=\"" ++ toFixed1 y2 ++ "\" " ++
          "stroke=\"" ++ sc ++ "\" stroke-width=\"" ++
          jsNum config.strokeWidth ++ "\" stroke-linecap=\"round\"" ++
          dashAttr da ++ "/>", s) := by
  intro x1 y1 x2 y2 config sc da s h
  unfold sketchyLine
  rw [if_neg h]
  exact RandM_pure_apply _ _

set_option maxHeartbeats 1600000 in
theorem C3fmt_path_single :
    ∀ (x1 y1 x2 y2 : ℚ) (config : ThemeConfig) (sc : String)
      (da : Option String) (s : Nat),
      config.jitterAmount > 0 → config.doubleStroke = false →
      ∃ a1 b1 m1 m2 a2 b2 : ℚ,
        (sketchyLine x1 y1 x2 y2 config sc da s).1 =
          "<path d=\"M " ++ toFixed1 a1 ++ " " ++ toFixed1 b1 ++ " Q " ++
            toFixed1 m1 ++ " " ++ toFixed1 m2 ++ " " ++ toFixed1 a2 ++
            " " ++ toFixed1 b2 ++ "\" " ++ "fill=\"none\" stroke=\"" ++
            sc ++ "\" stroke-width=\"" ++ jsNum config.strokeWidth ++
            "\" stroke-linecap=\"round\"" ++ dashAttr da ++ "/>" := by
  intro x1 y1 x2 y2 config sc da s h h2
  unfold sketchyLine
  rw [if_pos h]
  simp only [RandM_bind_apply, RandM_pure_apply, h2, Bool.false_eq_true,
    if_false]
  exact ⟨_, _, _, _, _, _, rfl⟩

set_option maxHeartbeats 1600000 in
theorem C3fmt_path_double :
    ∀ (x1 y1 x2 y2 : ℚ) (config : ThemeConfig) (sc : String)
      (da : Option String) (s : Nat),
      config.jitterAmount > 0 → config.doubleStroke = true →
      ∃ a1 b1 m1 m2 a2 b2 c1 d1 n1 n2 c2 d2 : ℚ,
        (sketchyLine x1 y1 x2 y2 config sc da s).1 =
          "<path d=\"M " ++ toFixed1 a1 ++ " " ++ toFixed1 b1 ++ " Q " ++
            toFixed1 m1 ++ " " ++ toFixed1 m2 ++ " " ++ toFixed1 a2 ++
            " " ++ toFixed1 b2 ++ "\" " ++ "fill=\"none\" stroke=\"" ++
            sc ++ "\" stroke-width=\"" ++ jsNum config.strokeWidth ++
            "\" stroke-linecap=\"round\"" ++ dashAttr da ++ "/>" ++ "\n" ++
          ("<path d=\"M " ++ toFixed1 c1 ++ " " ++ toFixed1 d1 ++ " " ++
            "Q " ++ toFixed1 n1 ++ " " ++ toFixed1 n2 ++ " " ++
            toFixed1 c2 ++ " " ++ toFixed1 d2 ++ "\" " ++
            "fill=\"none\" stroke=\"" ++ sc ++ "\" stroke-width=\"" ++
            jsNum (config.strokeWidth * 0.5) ++
            "\" stroke-linecap=\"round\" opacity=\"0.3\"" ++ dashAttr da ++
            "/>") := by
  intro x1 y1 x2 y2 config sc da s h h2
  unfold sketchyLine
  rw [if_pos h]
  simp only [RandM_bind_apply, RandM_pure_apply, h2, if_true]
  exact ⟨_, _, _, _, _, _, _, _, _, _, _, _, rfl⟩

theorem C3fmt_rect :
    ∀ (x y width height : ℚ) (fc sc : String) (config : ThemeConfig)
      (s : Nat),
      ¬ config.jitterAmount > 0 →
      renderRectangle x y width height fc sc config s =
        ("<rect x=\"" ++ toFixed1 x ++ "\" y=\"" ++ toFixed1 y ++
          "\" width=\"" ++ toFixed1 width ++ "\" height=\"" ++
          toFixed1 height ++ "\" " ++ "rx=\"" ++
          jsNum config.cornerRadius ++ "\" ry=\"" ++
          jsNum config.cornerRadius ++ "\" " ++ "fill=\"" ++ fc ++
          "\" fill-opacity=\"" ++ jsNum config.fillOpacity ++ "\" " ++
          "stroke=\"" ++ sc ++ "\" stroke-width=\"" ++
          jsNum config.strokeWidth ++ "\"/>", s) := by
  intro x y width height fc sc config s h
  unfold renderRectangle
  rw [if_neg h]
  exact RandM_pure_apply _ _

theorem C3fmt_ellipse :
    ∀ (M : JsMath) (cx cy rx ry : ℚ) (fc sc : String)
      (config : ThemeConfig) (s : Nat),
      ¬ config.jitterAmount > 0 →
      renderEllipse M cx cy rx ry fc sc config s =
        ("<ellipse cx=\"" ++ toFixed1 cx ++ "\" cy=\"" ++ toFixed1 cy ++
          "\" rx=\"" ++ toFixed1 rx ++ "\" ry=\"" ++ toFixed1 ry ++
          "\" " ++ "fill=\"" ++ fc ++ "\" fill-opacity=\"" ++
          jsNum config.fillOpacity ++ "\" " ++ "stroke=\"" ++ sc ++
          "\" stroke-width=\"" ++ jsNum config.strokeWidth ++ "\"/>", s) := by
  intro M cx cy rx ry fc sc config s h
  unfold renderEllipse
  rw [if_neg h]
  exact RandM_pure_apply _ _

theorem C3fmt_polyPts :
    ∀ points : List Pt, polyPts points =
      joinSep " "
        (points.map (fun p => toFixed1 p.x ++ "," ++ toFixed1 p.y)) := by
  intro points
  rfl

theorem C3fmt_polyFillPath :
    ∀ (points : List Pt) (fc : String) (fo : ℚ),
      polyFillPath points fc fo =
        "<path d=\"M " ++
          joinSep " L "
            (points.map (fun p => toFixed1 p.x ++ " " ++ toFixed1 p.y)) ++
          " Z\" " ++ "fill=\"" ++ fc ++ "\" fill-opacity=\"" ++ jsNum fo ++
          "\" stroke=\"none\"/>" := by
  intro points fc fo
  rfl

set_option maxHeartbeats 1600000 in
theorem C3fmt_diamond :
    ∀ (x y width height : ℚ) (fc sc : String) (config : ThemeConfig)
      (s : Nat),
      config.jitterAmount = 0 →
      renderDiamond x y width height fc sc config s =
        ("<polygon points=\"" ++
          polyPts [⟨x + width / 2, y⟩, ⟨x + width, y + height / 2⟩,
            ⟨x + width / 2, y + height⟩, ⟨x, y + height / 2⟩] ++ "\" " ++
          "fill=\"" ++ fc ++ "\" fill-opacity=\"" ++
          jsNum config.fillOpacity ++ "\" " ++ "stroke=\"" ++ sc ++
          "\" stroke-width=\"" ++ jsNum config.strokeWidth ++ "\"/>", s) := by
  intro x y width height fc sc config s h0
  have h0gt : ¬ ((0 : ℚ) > 0) := by norm_num
  unfold renderDiamond
  simp only [jitterPoint, jitter, h0, if_pos (rfl : (0 : ℚ) = 0),
    if_neg h0gt, ite_true, ite_false, RandM_bind_apply, RandM_pure_apply]

set_option maxHeartbeats 1600000 in
theorem C3fmt_arrowhead :
    ∀ (M : JsMath) (tipX tipY fromX fromY : ℚ) (color : String)
      (config : ThemeConfig) (s : Nat),
      ∃ jtx jty jx1 jy1 jx2 jy2 : ℚ,
        (renderArrowhead M tipX tipY fromX fromY color config s).1 =
          "<polygon points=\"" ++ toFixed1 jtx ++ "," ++ toFixed1 jty ++
            " " ++ toFixed1 jx1 ++ "," ++ toFixed1 jy1 ++ " " ++
            toFixed1 jx2 ++ "," ++ toFixed1 jy2 ++ "\" " ++ "fill=\"" ++
            color ++ "\" stroke=\"" ++ color ++ "\" stroke-width=\"" ++
            jsNum (config.strokeWidth * 0.5) ++
            "\" stroke-linejoin=\"round\"/>" := by
  intro M tipX tipY fromX fromY color config s
  unfold renderArrowhead
  simp only [RandM_bind_apply, RandM_pure_apply]
  exact ⟨_, _, _, _, _, _, rfl⟩

theorem C3fmt_text_short :
    ∀ (x y : ℚ) (text : String) (fs : ℚ) (ff c : String) (opts : TextOpts),
      ¬ text.length > 20 →
      renderText x y text fs ff c opts =
        "<text x=\"" ++ jsNum x ++ "\" y=\"" ++ jsNum y ++
          "\" text-anchor=\"middle\" dominant-baseline=\"central\" " ++
          "font-family='" ++ ff ++ "' font-size=\"" ++ jsNum fs ++
          "\" fill=\"" ++ c ++ "\"" ++
          (if opts.bold then " font-weight=\"bold\"" else "") ++ ">" ++
          escapeXml text ++ "</text>" := by
  intro x y text fs ff c opts h
  unfold renderText
  rw [if_neg h]

theorem C3fmt_text_long :
    ∀ (x y : ℚ) (text : String) (fs : ℚ) (ff c : String) (opts : TextOpts),
      text.length > 20 →
      renderText x y text fs ff c opts =
        "<text x=\"" ++ jsNum x ++ "\" y=\"" ++
          jsNum (y -
            (((wrapText text (opts.maxCharsPerLine.getD 18)).length : ℚ) - 1) *
              (fs * 1.3) / 2) ++
          "\" text-anchor=\"middle\" dominant-baseline=\"central\" " ++
          "font-family='" ++ ff ++ "' font-size=\"" ++ jsNum fs ++
          "\" fill=\"" ++ c ++ "\"" ++
          (if opts.bold then " font-weight=\"bold\"" else "") ++ ">" ++
          String.join
            ((wrapText text (opts.maxCharsPerLine.getD 18)).enum.map
              (fun p => renderTspan x (fs * 1.3) p.1 p.2)) ++
          "</text>" := by
  intro x y text fs ff c opts h
  unfold renderText
  rw [if_pos h]

theorem C3fmt_tspan :
    ∀ (x lineHeight : ℚ) (i : Nat) (line : String),
      renderTspan x lineHeight i line =
        "<tspan x=\"" ++ jsNum x ++ "\" dy=\"" ++
          (if i = 0 then "0" else jsNum lineHeight) ++ "\">" ++
          escapeXml line ++ "</tspan>" := by
  intro x lineHeight i line
  rfl

theorem C3fmt_svgRoot :
    ∀ (w h : ℚ) (ds es : List String),
      ("<svg xmlns=\"http://www.w3.org/2000/svg\" viewBox=\"0 0 " ++
        jsNum w ++ " " ++ jsNum h ++ "\" width=\"" ++ jsNum w ++
        "\" height=\"" ++ jsNum h ++ "\">").data <+:
        (svgDocument w h ds es).data := by
  intro w h ds es
  show _ <+: (joinSep "\n" _).data
  simp only [List.append_assoc, List.singleton_append, List.cons_append]
  apply prefix_joinSep_cons
  intro heq
  have h2 := congrArg List.length heq
  simp [List.length_append] at h2

set_option maxHeartbeats 1600000 in
/-- C3 (amended): shape, line, path and polygon emissions — the clean
`<rect>`, `<ellipse>` and `<polygon>` primitives, the jittered path strokes
(single and double), arrowhead polygons, and the shared polygon helpers —
format every coordinate with `toFixed(1)`; but `renderText` positions (the
`<text>` x/y and the `<tspan>` x/dy, in both the short and the word-wrapped
branch) and the svg root's viewBox/width/height are interpolated with the
default JavaScript number formatting. -/
theorem C3_formatting_amended :
    (∀ (x1 y1 x2 y2 : ℚ) (config : ThemeConfig) (sc : String)
      (da : Option String) (s : Nat),
      ¬ config.jitterAmount > 0 →
      sketchyLine x1 y1 x2 y2 config sc da s =
        ("<line x1=\"" ++ toFixed1 x1 ++ "\" y1=\"" ++ toFixed1 y1 ++
          "\" x2=\"" ++ toFixed1 x2 ++ "\" y2=\"" ++ toFixed1 y2 ++ "\" " ++
          "stroke=\"" ++ sc ++ "\" stroke-width=\"" ++
          jsNum config.strokeWidth ++ "\" stroke-linecap=\"round\"" ++
          dashAttr da ++ "/>", s)) ∧
    (∀ (x1 y1 x2 y2 : ℚ) (config : ThemeConfig) (sc : String)
      (da : Option String) (s : Nat),
      config.jitterAmount > 0 → config.doubleStroke = false →
      ∃ a1 b1 m1 m2 a2 b2 : ℚ,
        (sketchyLine x1 y1 x2 y2 config sc da s).1 =
          "<path d=\"M " ++ toFixed1 a1 ++ " " ++ toFixed1 b1 ++ " Q " ++
            toFixed1 m1 ++ " " ++ toFixed1 m2 ++ " " ++ toFixed1 a2 ++
            " " ++ toFixed1 b2 ++ "\" " ++ "fill=\"none\" stroke=\"" ++
            sc ++ "\" stroke-width=\"" ++ jsNum config.strokeWidth ++
            "\" stroke-linecap=\"round\"" ++ dashAttr da ++ "/>") ∧
    (∀ (x1 y1 x2 y2 : ℚ) (config : ThemeConfig) (sc : String)
      (da : Option String) (s : Nat),
      config.jitterAmount > 0 → config.doubleStroke = true →
      ∃ a1 b1 m1 m2 a2 b2 c1 d1 n1 n2 c2 d2 : ℚ,
        (sketchyLine x1 y1 x2 y2 config sc da s).1 =
          "<path d=\"M " ++ toFixed1 a1 ++ " " ++ toFixed1 b1 ++ " Q " ++
            toFixed1 m1 ++ " " ++ toFixed1 m2 ++ " " ++ toFixed1 a2 ++
            " " ++ toFixed1 b2 ++ "\" " ++ "fill=\"none\" stroke=\"" ++
            sc ++ "\" stroke-width=\"" ++ jsNum config.strokeWidth ++
            "\" stroke-linecap=\"round\"" ++ dashAttr da ++ "/>" ++ "\n" ++
          ("<path d=\"M " ++ toFixed1 c1 ++ " " ++ toFixed1 d1 ++ " " ++
            "Q " ++ toFixed1 n1 ++ " " ++ toFixed1 n2 ++ " " ++
            toFixed1 c2 ++ " " ++ toFixed1 d2 ++ "\" " ++
            "fill=\"none\" stroke=\"" ++ sc ++ "\" stroke-width=\"" ++
            jsNum (config.strokeWidth * 0.5) ++
            "\" stroke-linecap=\"round\" opacity=\"0.3\"" ++ dashAttr da ++
            "/>")) ∧
    (∀ (x y width height : ℚ) (fc sc : String) (config : ThemeConfig)
      (s : Nat),
      ¬ config.jitterAmount > 0 →
      renderRectangle x y width height fc sc config s =
        ("<rect x=\"" ++ toFixed1 x ++ "\" y=\"" ++ toFixed1 y ++
          "\" width=\"" ++ toFixed1 width ++ "\" height=\"" ++
          toFixed1 height ++ "\" " ++ "rx=\"" ++
          jsNum config.cornerRadius ++ "\" ry=\"" ++
          jsNum config.cornerRadius ++ "\" " ++ "fill=\"" ++ fc ++
          "\" fill-opacity=\"" ++ jsNum config.fillOpacity ++ "\" " ++
          "stroke=\"" ++ sc ++ "\" stroke-width=\"" ++
          jsNum config.strokeWidth ++ "\"/>", s)) ∧
    (∀ (M : JsMath) (cx cy rx ry : ℚ) (fc sc : String)
      (config : ThemeConfig) (s : Nat),
      ¬ config.jitterAmount > 0 →
      renderEllipse M cx cy rx ry fc sc config s =
        ("<ellipse cx=\"" ++ toFixed1 cx ++ "\" cy=\"" ++ toFixed1 cy ++
          "\" rx=\"" ++ toFixed1 rx ++ "\" ry=\"" ++ toFixed1 ry ++
          "\" " ++ "fill=\"" ++ fc ++ "\" fill-opacity=\"" ++
          jsNum config.fillOpacity ++ "\" " ++ "stroke=\"" ++ sc ++
          "\" stroke-width=\"" ++ jsNum config.strokeWidth ++ "\"/>", s)) ∧
    (∀ points : List Pt, polyPts points =
      joinSep " "
        (points.map (fun p => toFixed1 p.x ++ "," ++ toFixed1 p.y))) ∧
    (∀ (points : List Pt) (fc : String) (fo : ℚ),
      polyFillPath points fc fo =
        "<path d=\"M " ++
          joinSep " L "
            (points.map (fun p => toFixed1 p.x ++ " " ++ toFixed1 p.y)) ++
          " Z\" " ++ "fill=\"" ++ fc ++ "\" fill-opacity=\"" ++ jsNum fo ++
          "\" stroke=\"none\"/>") ∧
    (∀ (x y width height : ℚ) (fc sc : String) (config : ThemeConfig)
      (s : Nat),
      config.jitterAmount = 0 →
      renderDiamond x y width height fc sc config s =
        ("<polygon points=\"" ++
          polyPts [⟨x + width / 2, y⟩, ⟨x + width, y + height / 2⟩,
            ⟨x + width / 2, y + height⟩, ⟨x, y + height / 2⟩] ++ "\" " ++
          "fill=\"" ++ fc ++ "\" fill-opacity=\"" ++
          jsNum config.fillOpacity ++ "\" " ++ "stroke=\"" ++ sc ++
          "\" stroke-width=\"" ++ jsNum config.strokeWidth ++ "\"/>", s)) ∧
    (∀ (M : JsMath) (tipX tipY fromX fromY : ℚ) (color : String)
      (config : ThemeConfig) (s : Nat),
      ∃ jtx jty jx1 jy1 jx2 jy2 : ℚ,
        (renderArrowhead M tipX tipY fromX fromY color config s).1 =
          "<polygon points=\"" ++ toFixed1 jtx ++ "," ++ toFixed1 jty ++
            " " ++ toFixed1 jx1 ++ "," ++ toFixed1 jy1 ++ " " ++
            toFixed1 jx2 ++ "," ++ toFixed1 jy2 ++ "\" " ++ "fill=\"" ++
            color ++ "\" stroke=\"" ++ color ++ "\" stroke-width=\"" ++
            jsNum (config.strokeWidth * 0.5) ++
            "\" stroke-linejoin=\"round\"/>") ∧
    (∀ (x y : ℚ) (text : String) (fs : ℚ) (ff c : String) (opts : TextOpts),
      ¬ text.length > 20 →
      renderText x y text fs ff c opts =
        "<text x=\"" ++ jsNum x ++ "\" y=\"" ++ jsNum y ++
          "\" text-anchor=\"middle\" dominant-baseline=\"central\" " ++
          "font-family='" ++ ff ++ "' font-size=\"" ++ jsNum fs ++
          "\" fill=\"" ++ c ++ "\"" ++
          (if opts.bold then " font-weight=\"bold\"" else "") ++ ">" ++
          escapeXml text ++ "</text>") ∧
    (∀ (x y : ℚ) (text : String) (fs : ℚ) (ff c : String) (opts : TextOpts),
      text.length > 20 →
      renderText x y text fs ff c opts =
        "<text x=\"" ++ jsNum x ++ "\" y=\"" ++
          jsNum (y -
            (((wrapText text (opts.maxCharsPerLine.getD 18)).length : ℚ) - 1) *
              (fs * 1.3) / 2) ++
          "\" text-anchor=\"middle\" dominant-baseline=\"central\" " ++
          "font-family='" ++ ff ++ "' font-size=\"" ++ jsNum fs ++
          "\" fill=\"" ++ c ++ "\"" ++
          (if opts.bold then " font-weight=\"bold\"" else "") ++ ">" ++
          String.join
            ((wrapText text (opts.maxCharsPerLine.getD 18)).enum.map
              (fun p => renderTspan x (fs * 1.3) p.1 p.2)) ++
          "</text>") ∧
    (∀ (x lineHeight : ℚ) (i : Nat) (line : String),
      renderTspan x lineHeight i line =
        "<tspan x=\"" ++ jsNum x ++ "\" dy=\"" ++
          (if i = 0 then "0" else jsNum lineHeight) ++ "\">" ++
          escapeXml line ++ "</tspan>") ∧
    (∀ (w h : ℚ) (ds es : List String),
      ("<svg xmlns=\"http://www.w3.org/2000/svg\" viewBox=\"0 0 " ++
        jsNum w ++ " " ++ jsNum h ++ "\" width=\"" ++ jsNum w ++
        "\" height=\"" ++ jsNum h ++ "\">").data <+:
        (svgDocument w h ds es).data) :=
  ⟨C3fmt_line, C3fmt_path_single, C3fmt_path_double, C3fmt_rect,
   C3fmt_ellipse, C3fmt_polyPts, C3fmt_polyFillPath, C3fmt_diamond,
   C3fmt_arrowhead, C3fmt_text_short, C3fmt_text_long, C3fmt_tspan,
   C3fmt_svgRoot⟩

/-- C3 counterexample: in a rendered document the text element's position
and the root dimensions appear with default number formatting (`x="100"`,
`width="300"`), not as the one-decimal `toFixed(1)` forms `100.0`/`300.0`
(which appear nowhere in the output). -/
theorem C3_counterexample :
    ("<text x=\"100\" y=\"70\"".data <:+:
      ((renderFlowDiagram mathZero exLayoutShort .clean none 42).1).data) ∧
    ¬ ("x=\"100.0\"".data <:+:
      ((renderFlowDiagram mathZero exLayoutShort .clean none 42).1).data) ∧
    ("width=\"300\" height=\"200\"".data <:+:
      ((renderFlowDiagram mathZero exLayoutShort .clean none 42).1).data) ∧
    ¬ ("300.0".data <:+:
      ((renderFlowDiagram mathZero exLayoutShort .clean none 42).1).data) ∧
    toFixed1 100 = "100.0" ∧ toFixed1 300 = "300.0" := by
  with_unfolding_all decide

set_option maxHeartbeats 1600000 in
/-- C3 witness: the amended statement applied at concrete inputs for each
hypothesized emission kind — clean line, jittered single- and double-stroke
paths, clean rect, clean ellipse, clean diamond polygon, and both
`renderText` branches. -/
theorem C3_witness :
    sketchyLine 1 2 3 4 (getThemeConfig .clean) "#666666" none 42 =
      ("<line x1=\"" ++ toFixed1 1 ++ "\" y1=\"" ++ toFixed1 2 ++
        "\" x2=\"" ++ toFixed1 3 ++ "\" y2=\"" ++ toFixed1 4 ++ "\" " ++
        "stroke=\"" ++ "#666666" ++ "\" stroke-width=\"" ++
        jsNum (getThemeConfig .clean).strokeWidth ++
        "\" stroke-linecap=\"round\"" ++ dashAttr none ++ "/>", 42) ∧
    (∃ a1 b1 m1 m2 a2 b2 : ℚ,
      (sketchyLine 1 2 3 4
        { strokeWidth := 1, jitterAmount := 2, fillOpacity := 0.1,
          fontFamily := "f", doubleStroke := false, cornerRadius := 0 }
        "#666666" none 42).1 =
        "<path d=\"M " ++ toFixed1 a1 ++ " " ++ toFixed1 b1 ++ " Q " ++
          toFixed1 m1 ++ " " ++ toFixed1 m2 ++ " " ++ toFixed1 a2 ++ " " ++
          toFixed1 b2 ++ "\" " ++ "fill=\"none\" stroke=\"" ++ "#666666" ++
          "\" stroke-width=\"" ++
          jsNum
            (({ strokeWidth := 1, jitterAmount := 2, fillOpacity := 0.1,
                fontFamily := "f", doubleStroke := false,
                cornerRadius := 0 } : ThemeConfig)).strokeWidth ++
          "\" stroke-linecap=\"round\"" ++ dashAttr none ++ "/>") ∧
    (∃ a1 b1 m1 m2 a2 b2 c1 d1 n1 n2 c2 d2 : ℚ,
      (sketchyLine 1 2 3 4 (getThemeConfig .handDrawn) "#666666" none 42).1 =
        "<path d=\"M " ++ toFixed1 a1 ++ " " ++ toFixed1 b1 ++ " Q " ++
          toFixed1 m1 ++ " " ++ toFixed1 m2 ++ " " ++ toFixed1 a2 ++ " " ++
          toFixed1 b2 ++ "\" " ++ "fill=\"none\" stroke=\"" ++ "#666666" ++
          "\" stroke-width=\"" ++
          jsNum (getThemeConfig .handDrawn).strokeWidth ++
          "\" stroke-linecap=\"round\"" ++ dashAttr none ++ "/>" ++ "\n" ++
        ("<path d=\"M " ++ toFixed1 c1 ++ " " ++ toFixed1 d1 ++ " " ++
          "Q " ++ toFixed1 n1 ++ " " ++ toFixed1 n2 ++ " " ++ toFixed1 c2 ++
          " " ++ toFixed1 d2 ++ "\" " ++ "fill=\"none\" stroke=\"" ++
          "#666666" ++ "\" stroke-width=\"" ++
          jsNum ((getThemeConfig .handDrawn).strokeWidth * 0.5) ++
          "\" stroke-linecap=\"round\" opacity=\"0.3\"" ++ dashAttr none ++
          "/>")) ∧
    renderRectangle 40 40 120 60 "#4ECDC4" "#379089"
        (getThemeConfig .clean) 42 =
      ("<rect x=\"" ++ toFixed1 40 ++ "\" y=\"" ++ toFixed1 40 ++
        "\" width=\"" ++ toFixed1 120 ++ "\" height=\"" ++ toFixed1 60 ++
        "\" " ++ "rx=\"" ++ jsNum (getThemeConfig .clean).cornerRadius ++
        "\" ry=\"" ++ jsNum (getThemeConfig .clean).cornerRadius ++ "\" " ++
        "fill=\"" ++ "#4ECDC4" ++ "\" fill-opacity=\"" ++
        jsNum (getThemeConfig .clean).fillOpacity ++ "\" " ++
        "stroke=\"" ++ "#379089" ++ "\" stroke-width=\"" ++
        jsNum (getThemeConfig .clean).strokeWidth ++ "\"/>", 42) ∧
    renderEllipse mathZero 100 70 60 30 "#4ECDC4" "#379089"
        (getThemeConfig .clean) 42 =
      ("<ellipse cx=\"" ++ toFixed1 100 ++ "\" cy=\"" ++ toFixed1 70 ++
        "\" rx=\"" ++ toFixed1 60 ++ "\" ry=\"" ++ toFixed1 30 ++ "\" " ++
        "fill=\"" ++ "#4ECDC4" ++ "\" fill-opacity=\"" ++
        jsNum (getThemeConfig .clean).fillOpacity ++ "\" " ++
        "stroke=\"" ++ "#379089" ++ "\" stroke-width=\"" ++
        jsNum (getThemeConfig .clean).strokeWidth ++ "\"/>", 42) ∧
    renderDiamond 40 40 120 60 "#4ECDC4" "#379089"
        (getThemeConfig .clean) 42 =
      ("<polygon points=\"" ++
        polyPts [⟨40 + 120 / 2, 40⟩, ⟨40 + 120, 40 + 60 / 2⟩,
          ⟨40 + 120 / 2, 40 + 60⟩, ⟨40, 40 + 60 / 2⟩] ++ "\" " ++
        "fill=\"" ++ "#4ECDC4" ++ "\" fill-opacity=\"" ++
        jsNum (getThemeConfig .clean).fillOpacity ++ "\" " ++
        "stroke=\"" ++ "#379089" ++ "\" stroke-width=\"" ++
        jsNum (getThemeConfig .clean).strokeWidth ++ "\"/>", 42) ∧
    renderText 100 70 "Hi" 14 "Inter" "#333333" {} =
      "<text x=\"" ++ jsNum 100 ++ "\" y=\"" ++ jsNum 70 ++
        "\" text-anchor=\"middle\" dominant-baseline=\"central\" " ++
        "font-family='" ++ "Inter" ++ "' font-size=\"" ++ jsNum 14 ++
        "\" fill=\"" ++ "#333333" ++ "\"" ++
        (if ({} : TextOpts).bold then " font-weight=\"bold\"" else "") ++
        ">" ++ escapeXml "Hi" ++ "</text>" ∧
    renderText 100 70 "aaaaaaaaaa bbbbbbbbbb" 14 "Inter" "#333333" {} =
      "<text x=\"" ++ jsNum 100 ++ "\" y=\"" ++
        jsNum (70 -
          (((wrapText "aaaaaaaaaa bbbbbbbbbb"
              (({} : TextOpts).maxCharsPerLine.getD 18)).length : ℚ) - 1) *
            (14 * 1.3) / 2) ++
        "\" text-anchor=\"middle\" dominant-baseline=\"central\" " ++
        "font-family='" ++ "Inter" ++ "' font-size=\"" ++ jsNum 14 ++
        "\" fill=\"" ++ "#333333" ++ "\"" ++
        (if ({} : TextOpts).bold then " font-weight=\"bold\"" else "") ++
        ">" ++
        String.join
          ((wrapText "aaaaaaaaaa bbbbbbbbbb"
              (({} : TextOpts).maxCharsPerLine.getD 18)).enum.map
            (fun p => renderTspan 100 (14 * 1.3) p.1 p.2)) ++
        "</text>" :=
  ⟨C3_formatting_amended.1 1 2 3 4 (getThemeConfig .clean) "#666666" none 42
    (by norm_num [getThemeConfig]),
   C3_formatting_amended.2.1 1 2 3 4
    { strokeWidth := 1, jitterAmount := 2, fillOpacity := 0.1,
      fontFamily := "f", doubleStroke := false, cornerRadius := 0 }
    "#666666" none 42 (by norm_num) rfl,
   C3_formatting_amended.2.2.1 1 2 3 4 (getThemeConfig .handDrawn)
    "#666666" none 42 (by norm_num [getThemeConfig]) rfl,
   C3_formatting_amended.2.2.2.1 40 40 120 60 "#4ECDC4" "#379089"
    (getThemeConfig .clean) 42 (by norm_num [getThemeConfig]),
   C3_formatting_amended.2.2.2.2.1 mathZero 100 70 60 30 "#4ECDC4"
    "#379089" (getThemeConfig .clean) 42 (by norm_num [getThemeConfig]),
   C3_formatting_amended.2.2.2.2.2.2.2.1 40 40 120 60 "#4ECDC4" "#379089"
    (getThemeConfig .clean) 42 (by norm_num [getThemeConfig]),
   C3_formatting_amended.2.2.2.2.2.2.2.2.2.1 100 70 "Hi" 14 "Inter"
    "#333333" {} (by decide),
   C3_formatting_amended.2.2.2.2.2.2.2.2.2.2.1 100 70
    "aaaaaaaaaa bbbbbbbbbb" 14 "Inter" "#333333" {} (by decide)⟩


/-! ## C2: label preservation -/

theorem infix_app_left (g : List Char) {l m : List Char} (h : l <:+: m) :
    l <:+: g ++ m := by
  obtain ⟨a, b, rfl⟩ := h
  exact ⟨g ++ a, b, by simp⟩

theorem infix_app_right (g : List Char) {l m : List Char} (h : l <:+: m) :
    l <:+: m ++ g := by
  obtain ⟨a, b, rfl⟩ := h
  exact ⟨a, b ++ g, by simp⟩

theorem infixOf_mem_joinSep {p : String} {parts : List String} (sep : String)
    (hp : p ∈ parts) : p.data <:+: (joinSep sep parts).data := by
  induction parts with
  | nil => cases hp
  | cons a rest ih =>
    cases rest with
    | nil =>
      rcases List.mem_singleton.1 hp with rfl
      exact List.infix_rfl
    | cons b bs =>
      rw [joinSep_cons sep a (b :: bs) (by simp), str_data_append,
        str_data_append]
      rcases List.mem_cons.1 hp with rfl | hp'
      · exact infix_app_right _ (infix_app_right _ List.infix_rfl)
      · exact infix_app_left _ (ih hp')

theorem escape_infix_renderText (x y : ℚ) (text : String) (fs : ℚ)
    (ff c : String) (opts : TextOpts) (h : text.length ≤ 20) :
    (escapeXml text).data <:+: (renderText x y text fs ff c opts).data := by
  unfold renderText
  rw [if_neg (by omega : ¬ text.length > 20)]
  rw [str_data_append, str_data_append]
  exact infix_app_right _ (infix_app_left _ List.infix_rfl)

theorem escape_infix_renderShape (M : JsMath) (node : LayoutNode)
    (config : ThemeConfig) (i : Nat) (s : Nat)
    (h : node.label.length ≤ 20) :
    (escapeXml node.label).data <:+: ((renderShape M node config i) s).1.data := by
  have hrun : ((renderShape M node config i) s).1 =
      ("<g class=\"node\" data-id=\"" ++ escapeXml node.id ++ "\">\n" ++
        ((dispatchShape M node
          (node.color.getD (PALETTE.getD (i % PALETTE.length) ""))
          (darkenColor
            (node.color.getD (PALETTE.getD (i % PALETTE.length) "")) 0.3)
          config) s).1 ++
        "\n" ++
        renderText (node.x + node.width / 2) (shapeTextY node) node.label 14
          config.fontFamily (node.textColor.getD "#333333")
          { maxCharsPerLine := some 18 } ++
        "\n</g>") := rfl
  rw [hrun, str_data_append, str_data_append]
  exact infix_app_right _ (infix_app_left _
    (escape_infix_renderText _ _ _ _ _ _ _ h))

theorem mapRandM_exists_mem {α β : Type} (f : α → RandM β) :
    ∀ (l : List α) (s : Nat) {a : α}, a ∈ l →
      ∃ s', (f a s').1 ∈ (mapRandM f l s).1 := by
  intro l
  induction l with
  | nil => intro s a ha; cases ha
  | cons x xs ih =>
    intro s a ha
    rcases List.mem_cons.1 ha with rfl | ha'
    · refine ⟨s, ?_⟩
      simp only [mapRandM, RandM_bind_apply, RandM_pure_apply]
      exact List.mem_cons_self _ _
    · obtain ⟨s', hs'⟩ := ih (f x s).2 ha'
      refine ⟨s', ?_⟩
      simp only [mapRandM, RandM_bind_apply, RandM_pure_apply]
      exact List.mem_cons_of_mem _ hs'

theorem exists_enumFrom_mem {α : Type} {a : α} :
    ∀ (l : List α) (n : Nat), a ∈ l → ∃ i, (i, a) ∈ l.enumFrom n := by
  intro l
  induction l with
  | nil => intro n ha; cases ha
  | cons x xs ih =>
    intro n ha
    rcases List.mem_cons.1 ha with rfl | ha'
    · exact ⟨n, List.mem_cons_self _ _⟩
    · obtain ⟨i, hi⟩ := ih (n + 1) ha'
      exact ⟨i, List.mem_cons_of_mem _ hi⟩

theorem infix_wrapContent {l : List Char} {p : String} (titleOffset : ℚ)
    (titleElems contentParts : List String) (hp : p ∈ contentParts)
    (hl : l <:+: p.data) :
    ∃ e ∈ wrapContent titleOffset titleElems contentParts, l <:+: e.data := by
  unfold wrapContent
  by_cases h : titleOffset > 0
  · rw [if_pos h]
    refine ⟨"<g transform=\"translate(0, " ++ jsNum titleOffset ++ ")\">\n" ++
        joinSep "\n" contentParts ++ "\n</g>", ?_, ?_⟩
    · exact List.mem_append_right _ (List.mem_singleton.2 rfl)
    · rw [str_data_append, str_data_append]
      exact infix_app_right _ (infix_app_left _
        (hl.trans (infixOf_mem_joinSep "\n" hp)))
  · rw [if_neg h]
    exact ⟨p, List.mem_append_right _ hp, hl⟩

theorem infix_svgDocument {l : List Char} {e : String} (w h : ℚ)
    (ds es : List String) (he : e ∈ es) (hl : l <:+: e.data) :
    l <:+: (svgDocument w h ds es).data := by
  have h1 : l <:+: ("  " ++ e).data := by
    rw [str_data_append]
    exact infix_app_left _ hl
  refine h1.trans (infixOf_mem_joinSep "\n" ?_)
  simp only [List.mem_append, List.mem_map, List.mem_singleton]
  exact Or.inl (Or.inr ⟨e, he, rfl⟩)

/-- C2 (amended): for every node whose label is at most 20 characters long,
the escaped label appears verbatim in the rendered SVG; longer labels are
word-wrapped into separate `<tspan>` elements. -/
theorem C2_label_preservation :
    ∀ (M : JsMath) (layout : LayoutResult) (theme : Theme)
      (title : Option String) (s : Nat) (node : LayoutNode),
      node ∈ layout.nodes → node.label.length ≤ 20 →
      (escapeXml node.label).data <:+:
        ((renderFlowDiagram M layout theme title s).1).data := by
  intro M layout theme title s node hmem hlen
  have hrun : ((renderFlowDiagram M layout theme title) s).1 =
      svgDocument layout.width
        (layout.height + if truthy title then 40 else 0) []
        (wrapContent (if truthy title then 40 else 0)
          (if truthy title then
            [renderTitle (title.getD "") layout.width (getThemeConfig theme)]
          else [])
          ((mapRandM (fun g => renderGroup g (getThemeConfig theme))
              layout.groups 42).1 ++
            (mapRandM (fun e => renderEdge M e (getThemeConfig theme))
              layout.edges
              (mapRandM (fun g => renderGroup g (getThemeConfig theme))
                layout.groups 42).2).1 ++
            (mapRandM
              (fun p => renderShape M p.2 (getThemeConfig theme) p.1)
              layout.nodes.enum
              (mapRandM (fun e => renderEdge M e (getThemeConfig theme))
                layout.edges
                (mapRandM (fun g => renderGroup g (getThemeConfig theme))
                  layout.groups 42).2).2).1)) := rfl
  rw [hrun]
  obtain ⟨i, hienum⟩ := exists_enumFrom_mem layout.nodes 0 hmem
  obtain ⟨s', hs'⟩ := mapRandM_exists_mem
    (fun p => renderShape M p.2 (getThemeConfig theme) p.1)
    layout.nodes.enum
    (mapRandM (fun e => renderEdge M e (getThemeConfig theme)) layout.edges
      (mapRandM (fun g => renderGroup g (getThemeConfig theme))
        layout.groups 42).2).2
    hienum
  have hesc := escape_infix_renderShape M node (getThemeConfig theme) i s' hlen
  have hp : ((fun p => renderShape M p.2 (getThemeConfig theme) p.1)
        ((i, node) : Nat × LayoutNode) s').1 ∈
      (mapRandM (fun g => renderGroup g (getThemeConfig theme))
          layout.groups 42).1 ++
        (mapRandM (fun e => renderEdge M e (getThemeConfig theme))
          layout.edges
          (mapRandM (fun g => renderGroup g (getThemeConfig theme))
            layout.groups 42).2).1 ++
        (mapRandM (fun p => renderShape M p.2 (getThemeConfig theme) p.1)
          layout.nodes.enum
          (mapRandM (fun e => renderEdge M e (getThemeConfig theme))
            layout.edges
            (mapRandM (fun g => renderGroup g (getThemeConfig theme))
              layout.groups 42).2).2).1 :=
    List.mem_append_right _ hs'
  obtain ⟨e, heMem, hle⟩ := infix_wrapContent _ _ _ hp hesc
  exact infix_svgDocument _ _ _ _ heMem hle

/-- C2 counterexample: a 21-character label containing a space is wrapped
into two `<tspan>` lines, and its escaped form does not appear contiguously
anywhere in the rendered SVG. -/
theorem C2_counterexample :
    exNodeLong ∈ exLayoutLong.nodes ∧
    exNodeLong.label.length > 20 ∧
    ¬ (escapeXml exNodeLong.label).data <:+:
        ((renderFlowDiagram mathZero exLayoutLong .clean none 42).1).data := by
  refine ⟨List.mem_cons_self _ _, by decide, ?_⟩
  with_unfolding_all decide

/-- C2 witness: the amended theorem applied to a concrete short-labelled
node. -/
theorem C2_witness :
    (escapeXml exNodeShort.label).data <:+:
      ((renderFlowDiagram mathZero exLayoutShort .clean none 42).1).data :=
  C2_label_preservation mathZero exLayoutShort .clean none 42 exNodeShort
    (List.mem_cons_self _ _) (by decide)

end Sketchdraw
